import Mathlib

/-!
# Robot arm control server (golang/): session core and transport adapters

A shallow embedding of `internal/models/types.go`, `internal/ble/controller.go`,
`internal/api/handlers.go` and `internal/api/websocket.go`.

Conventions of the embedding:

* A Go `error` is an `Option String`: `none` is `nil`, `some s` carries `err.Error()`.
* A method with pointer receiver `*RobotController` takes the controller value and
  returns an `Outcome`: the returned value, the controller afterwards, and the
  trace of observable events in program order.
* The outcomes of calls that leave the repository (`(*bluetooth.Device).Disconnect`,
  `json.Marshal`) are inputs, collected in `Env`. The driver call may also panic, as
  it does on the zero `bluetooth.Device`; a panic unwinds through the callers, which
  the `panicked` flag of an `Outcome` records.
* The `*log.Logger` held by the controller writes lines; they are kept in the trace
  (`Event.bleLog`) because the mocked BLE write of `SendCommand` is such a line.
  The package-level `log.Printf` diagnostics of `websocket.go` influence nothing
  and are left out.
* Go `int` is `Int`; a decoded JSON number (`float64`, always finite) is a `Rat`,
  and `float64OfInt` is the value the decoder gives to an integer literal.
-/

namespace RobotArm

/-! ## internal/models/types.go -/

/-- The struct models.MotorCommand -/
structure MotorCommand where
  Motor : Int
  Direction : String
  Speed : Int
  Duration : Option Int := none
deriving DecidableEq, Repr

/-- The struct models.ConnectionStatus -/
structure ConnectionStatus where
  Connected : Bool
  Message : String
deriving DecidableEq, Repr

/-- The values stored in the `interface{}` Data field of a message or response:
a ConnectionStatus struct or one of the three gin.H literals of the handlers,
named after their keys. -/
inductive Payload where
  | connectionStatus (s : ConnectionStatus)
  | motorResult (success : Bool) (message : String)
  | status (robot_connected : Bool) (active_connections : Int)
  | robotInfo (connected : Bool) (device_info : String)
deriving DecidableEq, Repr

/-- The struct models.WebSocketMessage (its field Type is Type_ here, Type being
reserved) -/
structure WebSocketMessage where
  Type_ : String
  Message : String := ""
  Data : Option Payload := none
deriving DecidableEq, Repr

/-- The struct models.APIResponse -/
structure APIResponse where
  Status : String
  Message : String := ""
  Data : Option Payload := none
  Error : String := ""
deriving DecidableEq, Repr

/-! ## Values outside the repository -/

/-- A Go error: none is nil -/
abbrev Error := Option String

/-- A bluetooth.Device, reduced to the text its Address renders to -/
structure Device where
  Address : String
deriving DecidableEq, Repr

/-- What `encoding/json` stores in an `interface{}`: nil, bool, float64, string,
slice or map. -/
inductive Value where
  | null
  | bool (b : Bool)
  | number (f : Rat)
  | string (s : String)
  | array (xs : List Value)
  | object (kvs : List (String × Value))

/-- A decoded frame, `map[string]interface{}`, as an association list; an index
expression `rawMsg[k]` is `List.lookup k rawMsg`. The nil map is the empty list. -/
abbrev RawMsg := List (String × Value)

/-- Results of the calls that leave the repository while one operation runs -/
structure Env where
  /-- json.Marshal on a MotorCommand -/
  marshal : MotorCommand → Except String String
  /-- The error returned by (*bluetooth.Device).Disconnect -/
  deviceDisconnect : Error
  /-- Whether the call (*bluetooth.Device).Disconnect panics where it would have
  returned nil, as it does on the zero Device whose inner handle is nil; it is not
  read when deviceDisconnect holds an error -/
  devicePanics : Bool := false

/-! ## Session state, events, outcomes -/

/-- The struct ble.RobotController (its logger is configuration, not state) -/
structure RobotController where
  device : Option Device
  connected : Bool
deriving DecidableEq, Repr

/-- Observable events, in program order -/
inductive Event where
  /-- a line written through the controller logger -/
  | bleLog (line : String)
  /-- control entered RobotController.SendCommand with this argument -/
  | sendCommand (cmd : MotorCommand)
  /-- the driver call r.device.Disconnect() -/
  | deviceDisconnect (d : Device)
  /-- conn.WriteJSON(msg) on the socket -/
  | writeJSON (msg : WebSocketMessage)
  /-- c.JSON(code, body) on the HTTP response -/
  | respond (code : Nat) (body : APIResponse)
deriving DecidableEq, Repr

/-- Result of running one method: return value, controller afterwards, events.
When panicked is set the method did not return: a panic raised in the driver call
unwound through it, state and trace are those reached at the panic, and ret is
not a returned value (for an error it holds the text of the panic value). -/
structure Outcome (α : Type) where
  ret : α
  state : RobotController
  trace : List Event
  panicked : Bool := false

/-- The commands with which SendCommand was entered, in order -/
def sendCalls : List Event → List MotorCommand
  | [] => []
  | Event.sendCommand cmd :: es => cmd :: sendCalls es
  | _ :: es => sendCalls es

/-- The events past the connected check of SendCommand or inside the driver:
logger lines and driver calls -/
def driverSteps : List Event → List Event
  | [] => []
  | Event.bleLog l :: es => Event.bleLog l :: driverSteps es
  | Event.deviceDisconnect d :: es => Event.deviceDisconnect d :: driverSteps es
  | _ :: es => driverSteps es

/-- The messages written to the socket, in order -/
def writes : List Event → List WebSocketMessage
  | [] => []
  | Event.writeJSON m :: es => m :: writes es
  | _ :: es => writes es

/-- The HTTP responses written, in order -/
def responses : List Event → List (Nat × APIResponse)
  | [] => []
  | Event.respond c b :: es => (c, b) :: responses es
  | _ :: es => responses es

/-! ## internal/ble/controller.go -/

def DEVICE_NAME : String := "ESP32-RobotArm"

def NewRobotController : RobotController :=
  { device := none, connected := false }

/-- The value of `&bluetooth.Device{}` -/
def mockDevice : Device := { Address := "00:00:00:00:00:00" }

def ScanForDevice (r : RobotController) : Outcome (Option Device × Error) :=
  { ret := (some mockDevice, none)
    state := r
    trace := [Event.bleLog "Scanning for ESP32 Robot Arm...",
              Event.bleLog "Mock device found for testing"] }

def Connect (r : RobotController) (device : Option Device) : Outcome Error :=
  { ret := none
    state := { r with device := device, connected := true }
    trace := [Event.bleLog "Connecting to device...", Event.bleLog "Connected to device"] }

/-- The text of the panic value of a nil dereference -/
def nilDereference : String :=
  "runtime error: invalid memory address or nil pointer dereference"

def Disconnect (env : Env) (r : RobotController) : Outcome Error :=
  match r.device with
  | some d =>
    if r.connected then
      match env.deviceDisconnect with
      | some err =>
        { ret := some ("disconnect failed: " ++ err), state := r,
          trace := [Event.deviceDisconnect d] }
      | none =>
        if env.devicePanics then
          { ret := some nilDereference, state := r,
            trace := [Event.deviceDisconnect d], panicked := true }
        else
          { ret := none, state := { r with connected := false },
            trace := [Event.deviceDisconnect d, Event.bleLog "Disconnected"] }
    else { ret := none, state := r, trace := [] }
  | none => { ret := none, state := r, trace := [] }

def SendCommand (env : Env) (r : RobotController) (cmd : MotorCommand) : Outcome Error :=
  if !r.connected then
    { ret := some "not connected to device", state := r, trace := [Event.sendCommand cmd] }
  else
    match env.marshal cmd with
    | Except.error err =>
      { ret := some ("failed to marshal command: " ++ err), state := r,
        trace := [Event.sendCommand cmd] }
    | Except.ok jsonCmd =>
      { ret := none, state := r,
        trace := [Event.sendCommand cmd,
                  Event.bleLog ("Sending command: " ++ jsonCmd),
                  Event.bleLog ("Command would be sent via BLE: " ++ jsonCmd)] }

/-- The command built in the body of the StopAllMotors loop -/
def stopAllCmd (motor : Nat) : MotorCommand :=
  { Motor := motor, Direction := "forward", Speed := 0 }

/-- The loop of StopAllMotors over the remaining motor indices -/
def stopAllLoop (env : Env) (r : RobotController) : List Nat → Outcome Error
  | [] => { ret := none, state := r, trace := [] }
  | motor :: rest =>
    let o := SendCommand env r (stopAllCmd motor)
    match o.ret with
    | some err =>
      { ret := some ("failed to stop motor " ++ toString motor ++ ": " ++ err),
        state := o.state, trace := o.trace }
    | none =>
      let o2 := stopAllLoop env o.state rest
      { ret := o2.ret, state := o2.state, trace := o.trace ++ o2.trace }

def StopAllMotors (env : Env) (r : RobotController) : Outcome Error :=
  let o := stopAllLoop env r (List.range 3)
  { ret := o.ret, state := o.state,
    trace := Event.bleLog "Stopping all motors..." :: o.trace }

def IsConnected (r : RobotController) : Bool :=
  r.connected

def GetDeviceInfo (r : RobotController) : String :=
  match r.device with
  | some d => "Device: " ++ d.Address ++ " (" ++ DEVICE_NAME ++ ")"
  | none => "No device connected"

/-! ## internal/api/handlers.go

The `*gin.Context` is reduced to what the handlers use: the result of
`c.ShouldBindJSON(&cmd)` is an input, and each `c.JSON(code, body)` is an event.
`GetStatus` (a clock reading in a `ServerStatus`) is not needed below. -/

def StatusOK : Nat := 200
def StatusBadRequest : Nat := 400
def StatusInternalServerError : Nat := 500

def ConnectRobot (r : RobotController) : Outcome Unit :=
  let s := ScanForDevice r
  match s.ret.2 with
  | some err =>
    { ret := (), state := s.state,
      trace := s.trace ++
        [Event.respond StatusInternalServerError { Status := "error", Error := err }] }
  | none =>
    let c := Connect s.state s.ret.1
    match c.ret with
    | some err =>
      { ret := (), state := c.state,
        trace := s.trace ++ c.trace ++
          [Event.respond StatusInternalServerError { Status := "error", Error := err }] }
    | none =>
      { ret := (), state := c.state,
        trace := s.trace ++ c.trace ++
          [Event.respond StatusOK { Status := "success", Message := "Connected to robot" }] }

def DisconnectRobot (env : Env) (r : RobotController) : Outcome Unit :=
  let d := Disconnect env r
  if d.panicked then
    { ret := (), state := d.state, trace := d.trace, panicked := true }
  else
  match d.ret with
  | some err =>
    { ret := (), state := d.state,
      trace := d.trace ++
        [Event.respond StatusInternalServerError { Status := "error", Error := err }] }
  | none =>
    { ret := (), state := d.state,
      trace := d.trace ++
        [Event.respond StatusOK { Status := "success", Message := "Disconnected from robot" }] }

/-- The handler MoveMotor; bound is the result of c.ShouldBindJSON(&cmd): the
decoded command, or the text of the binding error -/
def MoveMotor (env : Env) (r : RobotController) (bound : Except String MotorCommand) :
    Outcome Unit :=
  match bound with
  | Except.error err =>
    { ret := (), state := r,
      trace := [Event.respond StatusBadRequest { Status := "error", Error := err }] }
  | Except.ok cmd =>
    let o := SendCommand env r cmd
    match o.ret with
    | some err =>
      { ret := (), state := o.state,
        trace := o.trace ++
          [Event.respond StatusInternalServerError { Status := "error", Error := err }] }
    | none =>
      { ret := (), state := o.state,
        trace := o.trace ++
          [Event.respond StatusOK { Status := "success", Message := "Motor command sent" }] }

/-- The handler Handlers.StopAllMotors of handlers.go -/
def StopAllMotorsHandler (env : Env) (r : RobotController) : Outcome Unit :=
  let o := StopAllMotors env r
  match o.ret with
  | some err =>
    { ret := (), state := o.state,
      trace := o.trace ++
        [Event.respond StatusInternalServerError { Status := "error", Error := err }] }
  | none =>
    { ret := (), state := o.state,
      trace := o.trace ++
        [Event.respond StatusOK { Status := "success", Message := "All motors stopped" }] }

def GetRobotInfo (r : RobotController) : Outcome Unit :=
  { ret := (), state := r,
    trace := [Event.respond StatusOK
      { Status := "success",
        Data := some (Payload.robotInfo (IsConnected r) (GetDeviceInfo r)) }] }

/-! ## internal/api/websocket.go -/

/-- The type assertion `v.(string)` on the result of a map index -/
def asString : Option Value → Option String
  | some (Value.string s) => some s
  | _ => none

/-- The type assertion `v.(float64)` on the result of a map index -/
def asFloat64 : Option Value → Option Rat
  | some (Value.number f) => some f
  | _ => none

/-- The conversion `int(f)` of a finite float64 on a 64-bit target: truncation
toward zero. Outside the int64 range Go leaves the result to the implementation;
the value taken here is the one amd64 yields. -/
def intOfFloat64 (f : Rat) : Int :=
  let t := Int.tdiv f.num f.den
  if -(2 ^ 63 : Int) ≤ t ∧ t < 2 ^ 63 then t else -(2 ^ 63)

/-- A failing conn.WriteJSON is only logged, so the write is the whole effect -/
def sendMessage (msgType : String) (data : Payload) : List Event :=
  [Event.writeJSON { Type_ := msgType, Data := some data }]

def sendError (message : String) : List Event :=
  [Event.writeJSON { Type_ := "error", Message := message }]

def handleConnectCommand (r : RobotController) : Outcome Unit :=
  let s := ScanForDevice r
  match s.ret.2 with
  | some err =>
    { ret := (), state := s.state,
      trace := s.trace ++ sendError ("Device not found: " ++ err) }
  | none =>
    let c := Connect s.state s.ret.1
    match c.ret with
    | some err =>
      { ret := (), state := c.state,
        trace := s.trace ++ c.trace ++ sendError ("Connection failed: " ++ err) }
    | none =>
      { ret := (), state := c.state,
        trace := s.trace ++ c.trace ++
          sendMessage "connection_status"
            (Payload.connectionStatus { Connected := true, Message := "Connected to robot" }) }

def handleDisconnectCommand (env : Env) (r : RobotController) : Outcome Unit :=
  let d := Disconnect env r
  if d.panicked then
    { ret := (), state := d.state, trace := d.trace, panicked := true }
  else
  match d.ret with
  | some err =>
    { ret := (), state := d.state,
      trace := d.trace ++ sendError ("Disconnect failed: " ++ err) }
  | none =>
    { ret := (), state := d.state,
      trace := d.trace ++
        sendMessage "connection_status"
          (Payload.connectionStatus
            { Connected := false, Message := "Disconnected from robot" }) }

def handleMoveMotorCommand (env : Env) (r : RobotController) (rawMsg : RawMsg) :
    Outcome Unit :=
  if !IsConnected r then
    { ret := (), state := r, trace := sendError "Not connected to robot" }
  else
    match asFloat64 (List.lookup "motor" rawMsg),
          asString (List.lookup "direction" rawMsg),
          asFloat64 (List.lookup "speed" rawMsg) with
    | some motor, some direction, some speed =>
      let cmd : MotorCommand :=
        { Motor := intOfFloat64 motor, Direction := direction, Speed := intOfFloat64 speed }
      let o := SendCommand env r cmd
      match o.ret with
      | some err =>
        { ret := (), state := o.state,
          trace := o.trace ++ sendError ("Failed to send command: " ++ err) }
      | none =>
        { ret := (), state := o.state,
          trace := o.trace ++
            sendMessage "motor_command" (Payload.motorResult true "Motor command sent") }
    | _, _, _ =>
      { ret := (), state := r, trace := sendError "Invalid motor command parameters" }

def handleStopMotorCommand (env : Env) (r : RobotController) (rawMsg : RawMsg) :
    Outcome Unit :=
  if !IsConnected r then
    { ret := (), state := r, trace := sendError "Not connected to robot" }
  else
    match asFloat64 (List.lookup "motor" rawMsg) with
    | none => { ret := (), state := r, trace := sendError "Invalid motor parameter" }
    | some motor =>
      let motorCmd : MotorCommand :=
        { Motor := intOfFloat64 motor, Direction := "stop", Speed := 0 }
      let o := SendCommand env r motorCmd
      match o.ret with
      | some err =>
        { ret := (), state := o.state,
          trace := o.trace ++ sendError ("Failed to stop motor: " ++ err) }
      | none =>
        { ret := (), state := o.state,
          trace := o.trace ++
            sendMessage "motor_command" (Payload.motorResult true "Motor stopped") }

def handleStopAllCommand (env : Env) (r : RobotController) : Outcome Unit :=
  if !IsConnected r then
    { ret := (), state := r, trace := sendError "Not connected to robot" }
  else
    let o := StopAllMotors env r
    match o.ret with
    | some err =>
      { ret := (), state := o.state,
        trace := o.trace ++ sendError ("Failed to stop all motors: " ++ err) }
    | none =>
      { ret := (), state := o.state,
        trace := o.trace ++
          sendMessage "motor_command" (Payload.motorResult true "All motors stopped") }

def handleGetStatusCommand (r : RobotController) : Outcome Unit :=
  { ret := (), state := r,
    trace := sendMessage "status" (Payload.status (IsConnected r) 1) }

/-- The discriminator of a frame as the loop of WebSocketHandler determines it:
the `command` field when it is a string, else the `type` field when it is a
string, else none -/
def frameCommand (rawMsg : RawMsg) : Option String :=
  match asString (List.lookup "command" rawMsg) with
  | some cmd => some cmd
  | none => asString (List.lookup "type" rawMsg)

/-- The body of the loop of WebSocketHandler after a successful conn.ReadJSON -/
def handleFrame (env : Env) (r : RobotController) (rawMsg : RawMsg) : Outcome Unit :=
  match frameCommand rawMsg with
  | none => { ret := (), state := r, trace := sendError "No command or type field found" }
  | some command =>
    if command = "" then
      { ret := (), state := r, trace := sendError "Empty command received" }
    else if command = "connect" then handleConnectCommand r
    else if command = "disconnect" then handleDisconnectCommand env r
    else if command = "move_motor" then handleMoveMotorCommand env r rawMsg
    else if command = "stop_motor" then handleStopMotorCommand env r rawMsg
    else if command = "stop_all" then handleStopAllCommand env r
    else if command = "get_status" then handleGetStatusCommand r
    else
      { ret := (), state := r,
        trace := sendError ("Unknown command: '" ++ command ++ "'") }

/-- One turn of the loop: what conn.ReadJSON gave, and the results of the outside
calls made while the frame is handled -/
structure Read where
  result : Except String RawMsg
  env : Env

/-- The loop of WebSocketHandler over the successive reads. The returned flag
tells whether the loop is still running: a read error is the only break, and a
panic while a frame is handled unwinds out of the loop. -/
def readLoop (r : RobotController) : List Read → Outcome Bool
  | [] => { ret := true, state := r, trace := [] }
  | rd :: rest =>
    match rd.result with
    | Except.error _ => { ret := false, state := r, trace := [] }
    | Except.ok rawMsg =>
      let o := handleFrame rd.env r rawMsg
      if o.panicked then
        { ret := false, state := o.state, trace := o.trace, panicked := true }
      else
        let o2 := readLoop o.state rest
        { ret := o2.ret, state := o2.state, trace := o.trace ++ o2.trace,
          panicked := o2.panicked }

/-- The handler WebSocketHandler: nothing happens when the upgrade fails -/
def WebSocketHandler (upgraded : Bool) (r : RobotController) (reads : List Read) :
    Outcome Bool :=
  if upgraded then readLoop r reads else { ret := false, state := r, trace := [] }

/-! ## Sequences of session operations -/

/-- A call of one of the four operations of the session that the transports use,
with the results of the outside calls it makes -/
inductive Op where
  | connect (device : Option Device)
  | disconnect (env : Env)
  | sendCommand (env : Env) (cmd : MotorCommand)
  | stopAllMotors (env : Env)

/-- The controller after one call -/
def Op.apply (r : RobotController) : Op → RobotController
  | Op.connect device => (Connect r device).state
  | Op.disconnect env => (Disconnect env r).state
  | Op.sendCommand env cmd => (SendCommand env r cmd).state
  | Op.stopAllMotors env => (StopAllMotors env r).state

/-- The controller after a sequence of calls, first call first -/
def runOps (r : RobotController) (ops : List Op) : RobotController :=
  ops.foldl Op.apply r

/-- An outside world in which json.Marshal succeeds with the compact encoding of
the three mandatory fields (Duration unset) and the device disconnects cleanly -/
def okEnv : Env :=
  { marshal := fun cmd => Except.ok
      ("\x7b\"motor\":" ++ toString cmd.Motor ++ ",\"direction\":\"" ++ cmd.Direction ++
        "\",\"speed\":" ++ toString cmd.Speed ++ "\x7d")
    deviceDisconnect := none }

/-- An outside world like okEnv except that json.Marshal fails on the commands for
the given motor -/
def marshalFailsOn (motor : Int) : Env :=
  { marshal := fun cmd =>
      if cmd.Motor = motor then Except.error "unsupported value" else okEnv.marshal cmd
    deviceDisconnect := none }

/-- The session after a Connect with the scanned device -/
def connectedSession : RobotController :=
  (Connect NewRobotController (some mockDevice)).state

/-- An outside world in which json.Marshal succeeds and the driver's Disconnect
panics: that of a session holding the zero Device of the mocked scan -/
def zeroDeviceEnv : Env :=
  { marshal := okEnv.marshal, deviceDisconnect := none, devicePanics := true }

/-- The least shift e, searched upward from e, that brings a below 2^53 -/
def float64Shift (a : Nat) : Nat → Nat → Nat
  | 0, e => e
  | fuel + 1, e => if a / 2 ^ e < 2 ^ 53 then e else float64Shift a fuel (e + 1)

/-- The float64 that encoding/json decodes the integer literal n to: n itself
when its magnitude is below 2^53, else n rounded to 53 significant bits, ties to
even. (A literal of magnitude 2^1024 or more makes ReadJSON fail; no frame is
decoded from it.) -/
def float64OfInt (n : Int) : Rat :=
  if n.natAbs < 2 ^ 53 then (n : Rat)
  else
    let a := n.natAbs
    let e := float64Shift a 1024 0
    let q := a / 2 ^ e
    let rest := a % 2 ^ e
    let up := decide (2 ^ e < 2 * rest) || (decide (2 * rest = 2 ^ e) && decide (q % 2 = 1))
    let mag : Int := ((if up then q + 1 else q) * 2 ^ e : Nat)
    if n < 0 then ((-mag : Int) : Rat) else (mag : Rat)

/-- The decoded frame with discriminator move_motor and the three command fields
given as integer literals, such as the one for motor 1, direction forward, speed
50 -/
def moveFrame (motor : Int) (direction : String) (speed : Int) : RawMsg :=
  [("command", Value.string "move_motor"), ("motor", Value.number (float64OfInt motor)),
   ("direction", Value.string direction), ("speed", Value.number (float64OfInt speed))]

/-- The Type values of the messages the streaming handler writes: connection
status, motor command result, status report, error report -/
def outboundTypes : List String :=
  ["connection_status", "motor_command", "status", "error"]

/-- The decoded frame with discriminator stop_motor for the given motor that
also carries a direction and a speed, the numbers given as integer literals -/
def stopFrame (motor : Int) (direction : String) (speed : Int) : RawMsg :=
  [("command", Value.string "stop_motor"), ("motor", Value.number (float64OfInt motor)),
   ("direction", Value.string direction), ("speed", Value.number (float64OfInt speed))]

/-- The decoded frame that holds a command field only -/
def commandFrame (command : String) : RawMsg :=
  [("command", Value.string command)]

/-- The six discriminators the loop of WebSocketHandler dispatches on -/
def knownCommands : List String :=
  ["connect", "disconnect", "move_motor", "stop_motor", "stop_all", "get_status"]

/-! ## Basic facts about traces and SendCommand -/

theorem sendCalls_append (xs ys : List Event) :
    sendCalls (xs ++ ys) = sendCalls xs ++ sendCalls ys := by
  induction xs with
  | nil => rfl
  | cons e es ih => cases e <;> simp [sendCalls, ih]

theorem writes_append (xs ys : List Event) :
    writes (xs ++ ys) = writes xs ++ writes ys := by
  induction xs with
  | nil => rfl
  | cons e es ih => cases e <;> simp [writes, ih]

theorem driverSteps_append (xs ys : List Event) :
    driverSteps (xs ++ ys) = driverSteps xs ++ driverSteps ys := by
  induction xs with
  | nil => rfl
  | cons e es ih => cases e <;> simp [driverSteps, ih]

theorem SendCommand_state (env : Env) (r : RobotController) (cmd : MotorCommand) :
    (SendCommand env r cmd).state = r := by
  unfold SendCommand
  split
  · rfl
  · split <;> rfl

theorem SendCommand_sendCalls (env : Env) (r : RobotController) (cmd : MotorCommand) :
    sendCalls (SendCommand env r cmd).trace = [cmd] := by
  unfold SendCommand
  split
  · rfl
  · split <;> rfl

theorem SendCommand_writes (env : Env) (r : RobotController) (cmd : MotorCommand) :
    writes (SendCommand env r cmd).trace = [] := by
  unfold SendCommand
  split
  · rfl
  · split <;> rfl

theorem intOfFloat64_intCast (m : Int) (hlo : -(2 ^ 63 : Int) ≤ m) (hhi : m < 2 ^ 63) :
    intOfFloat64 (m : Rat) = m := by
  have h : Int.tdiv (m : Rat).num ((m : Rat).den : Int) = m := by
    simp [Int.tdiv_one]
  unfold intOfFloat64
  simp only [h]
  rw [if_pos ⟨hlo, hhi⟩]

/-- An integer of magnitude below 2^53 is decoded exactly -/
theorem float64OfInt_small (n : Int) (h : n.natAbs < 2 ^ 53) :
    float64OfInt n = (n : Rat) := by
  unfold float64OfInt
  rw [if_pos h]

theorem SendCommand_ret_ok (env : Env) (r : RobotController) (cmd : MotorCommand)
    (js : String) (hc : r.connected = true) (hm : env.marshal cmd = Except.ok js) :
    (SendCommand env r cmd).ret = none := by
  simp [SendCommand, hc, hm]

theorem stopAllLoop_state (env : Env) (r : RobotController) (ms : List Nat) :
    (stopAllLoop env r ms).state = r := by
  induction ms with
  | nil => rfl
  | cons m rest ih =>
    unfold stopAllLoop
    simp only [SendCommand_state]
    split
    · rfl
    · exact ih

theorem StopAllMotors_state (env : Env) (r : RobotController) :
    (StopAllMotors env r).state = r := by
  simp [StopAllMotors, stopAllLoop_state]

theorem stopAllLoop_writes (env : Env) (r : RobotController) (ms : List Nat) :
    writes (stopAllLoop env r ms).trace = [] := by
  induction ms with
  | nil => rfl
  | cons m rest ih =>
    unfold stopAllLoop
    simp only [SendCommand_state]
    split
    · exact SendCommand_writes env r _
    · simp [writes_append, SendCommand_writes, ih]

theorem StopAllMotors_writes (env : Env) (r : RobotController) :
    writes (StopAllMotors env r).trace = [] := by
  simp [StopAllMotors, writes, stopAllLoop_writes]

/-- When every send of the list succeeds the loop returns nil after one send per
index, in order -/
theorem stopAllLoop_all_ok (env : Env) (r : RobotController) (ms : List Nat)
    (h : ∀ m ∈ ms, (SendCommand env r (stopAllCmd m)).ret = none) :
    (stopAllLoop env r ms).ret = none ∧
      sendCalls (stopAllLoop env r ms).trace = ms.map stopAllCmd := by
  induction ms with
  | nil => exact ⟨rfl, rfl⟩
  | cons m rest ih =>
    have hm := h m (List.mem_cons_self m rest)
    have hrest := ih (fun x hx => h x (List.mem_cons_of_mem m hx))
    unfold stopAllLoop
    simp only [SendCommand_state, hm]
    exact ⟨hrest.1, by simp [sendCalls_append, SendCommand_sendCalls, hrest.2]⟩

/-- When the send for k is the first of the list to fail, the loop returns the
error naming k after the sends up to k, and none after -/
theorem stopAllLoop_first_failure (env : Env) (r : RobotController)
    (pre post : List Nat) (k : Nat) (e : String)
    (hpre : ∀ m ∈ pre, (SendCommand env r (stopAllCmd m)).ret = none)
    (hk : (SendCommand env r (stopAllCmd k)).ret = some e) :
    (stopAllLoop env r (pre ++ k :: post)).ret
        = some ("failed to stop motor " ++ toString k ++ ": " ++ e) ∧
      sendCalls (stopAllLoop env r (pre ++ k :: post)).trace
        = (pre ++ [k]).map stopAllCmd := by
  induction pre with
  | nil =>
    simp only [List.nil_append]
    unfold stopAllLoop
    simp [hk, SendCommand_sendCalls]
  | cons m rest ih =>
    have hm := hpre m (List.mem_cons_self m rest)
    have hrest := ih (fun x hx => hpre x (List.mem_cons_of_mem m hx))
    simp only [List.cons_append]
    unfold stopAllLoop
    simp only [SendCommand_state, hm]
    exact ⟨hrest.1, by simp [sendCalls_append, SendCommand_sendCalls, hrest.2]⟩

/-- A frame whose discriminator is move_motor is handled by handleMoveMotorCommand -/
theorem handleFrame_move_motor (env : Env) (r : RobotController) (rawMsg : RawMsg)
    (h : frameCommand rawMsg = some "move_motor") :
    handleFrame env r rawMsg = handleMoveMotorCommand env r rawMsg := by
  simp [handleFrame, h]

/-- A frame whose discriminator is stop_motor is handled by handleStopMotorCommand -/
theorem handleFrame_stop_motor (env : Env) (r : RobotController) (rawMsg : RawMsg)
    (h : frameCommand rawMsg = some "stop_motor") :
    handleFrame env r rawMsg = handleStopMotorCommand env r rawMsg := by
  simp [handleFrame, h]

/-- On a Connected session, a move_motor frame with a number, a string and a number
in its three fields reaches SendCommand once, with the fields converted and
nothing else changed; the event written follows the result of the send. -/
theorem handleMoveMotorCommand_connected (env : Env) (r : RobotController) (rawMsg : RawMsg)
    (fm fs : Rat) (d : String) (hc : r.connected = true)
    (hm : List.lookup "motor" rawMsg = some (Value.number fm))
    (hd : List.lookup "direction" rawMsg = some (Value.string d))
    (hs : List.lookup "speed" rawMsg = some (Value.number fs)) :
    sendCalls (handleMoveMotorCommand env r rawMsg).trace
        = [{ Motor := intOfFloat64 fm, Direction := d, Speed := intOfFloat64 fs }] ∧
      (handleMoveMotorCommand env r rawMsg).state = r ∧
      (∀ js, env.marshal { Motor := intOfFloat64 fm, Direction := d, Speed := intOfFloat64 fs }
          = Except.ok js →
        writes (handleMoveMotorCommand env r rawMsg).trace
          = [{ Type_ := "motor_command",
               Data := some (Payload.motorResult true "Motor command sent") }]) := by
  unfold handleMoveMotorCommand
  simp only [IsConnected, hc, hm, hd, hs, asFloat64, asString, SendCommand_state]
  refine ⟨?_, ?_, ?_⟩
  · simp only [Bool.not_true, Bool.false_eq_true, if_false]
    split <;> simp [sendCalls_append, SendCommand_sendCalls, sendError, sendMessage, sendCalls]
  · simp only [Bool.not_true, Bool.false_eq_true, if_false]
    split <;> rfl
  · intro js hjs
    have hret := SendCommand_ret_ok env r _ js hc hjs
    simp [hret, writes_append, SendCommand_writes, sendMessage, writes]

/-- The handler MoveMotor passes every bound command to SendCommand, unchanged -/
theorem MoveMotor_sendCalls (env : Env) (r : RobotController) (cmd : MotorCommand) :
    sendCalls (MoveMotor env r (Except.ok cmd)).trace = [cmd] := by
  unfold MoveMotor
  simp only
  split <;> simp [sendCalls_append, SendCommand_sendCalls, sendCalls]

/-- On a Connected session on which json.Marshal succeeds the handler MoveMotor
answers 200 with status success -/
theorem MoveMotor_success (env : Env) (r : RobotController) (cmd : MotorCommand) (js : String)
    (hc : r.connected = true) (hjs : env.marshal cmd = Except.ok js) :
    responses (MoveMotor env r (Except.ok cmd)).trace
      = [(200, { Status := "success", Message := "Motor command sent" })] := by
  simp [MoveMotor, SendCommand, hc, hjs, responses, StatusOK]

/-! ## One written message per handled frame -/

theorem sendError_one (xs : List Event) (hx : writes xs = []) (msg : String) :
    ∃ m, writes (xs ++ sendError msg) = [m] ∧ m.Type_ ∈ outboundTypes :=
  ⟨{ Type_ := "error", Message := msg },
    by simp [writes_append, hx, sendError, writes], by simp [outboundTypes]⟩

theorem sendMessage_one (xs : List Event) (hx : writes xs = []) (t : String) (p : Payload)
    (ht : t ∈ outboundTypes) :
    ∃ m, writes (xs ++ sendMessage t p) = [m] ∧ m.Type_ ∈ outboundTypes :=
  ⟨{ Type_ := t, Data := some p },
    by simp [writes_append, hx, sendMessage, writes], ht⟩

theorem Disconnect_writes (env : Env) (r : RobotController) :
    writes (Disconnect env r).trace = [] := by
  unfold Disconnect
  split
  · split
    · split
      · rfl
      · split <;> rfl
    · rfl
  · rfl

theorem handleConnectCommand_one (r : RobotController) :
    ∃ m, writes (handleConnectCommand r).trace = [m] ∧ m.Type_ ∈ outboundTypes :=
  ⟨{ Type_ := "connection_status",
     Data := some (Payload.connectionStatus
       { Connected := true, Message := "Connected to robot" }) },
    by simp [handleConnectCommand, ScanForDevice, Connect, sendMessage, writes],
    by simp [outboundTypes]⟩

/-- The handler of disconnect writes one message unless the driver call panicked -/
theorem handleDisconnectCommand_one (env : Env) (r : RobotController) :
    (∃ m, writes (handleDisconnectCommand env r).trace = [m] ∧ m.Type_ ∈ outboundTypes) ∨
      (handleDisconnectCommand env r).panicked = true := by
  unfold handleDisconnectCommand
  simp only
  split
  · exact Or.inr rfl
  · split
    · exact Or.inl (sendError_one _ (Disconnect_writes env r) _)
    · exact Or.inl
        (sendMessage_one _ (Disconnect_writes env r) _ _ (by simp [outboundTypes]))

theorem handleMoveMotorCommand_one (env : Env) (r : RobotController) (rawMsg : RawMsg) :
    ∃ m, writes (handleMoveMotorCommand env r rawMsg).trace = [m] ∧ m.Type_ ∈ outboundTypes := by
  unfold handleMoveMotorCommand
  split
  · exact sendError_one [] rfl _
  · split
    · simp only
      split
      · exact sendError_one _ (SendCommand_writes env r _) _
      · exact sendMessage_one _ (SendCommand_writes env r _) _ _ (by simp [outboundTypes])
    · exact sendError_one [] rfl _

theorem handleStopMotorCommand_one (env : Env) (r : RobotController) (rawMsg : RawMsg) :
    ∃ m, writes (handleStopMotorCommand env r rawMsg).trace = [m] ∧ m.Type_ ∈ outboundTypes := by
  unfold handleStopMotorCommand
  split
  · exact sendError_one [] rfl _
  · split
    · exact sendError_one [] rfl _
    · simp only
      split
      · exact sendError_one _ (SendCommand_writes env r _) _
      · exact sendMessage_one _ (SendCommand_writes env r _) _ _ (by simp [outboundTypes])

theorem handleStopAllCommand_one (env : Env) (r : RobotController) :
    ∃ m, writes (handleStopAllCommand env r).trace = [m] ∧ m.Type_ ∈ outboundTypes := by
  unfold handleStopAllCommand
  split
  · exact sendError_one [] rfl _
  · simp only
    split
    · exact sendError_one _ (StopAllMotors_writes env r) _
    · exact sendMessage_one _ (StopAllMotors_writes env r) _ _ (by simp [outboundTypes])

theorem handleGetStatusCommand_one (r : RobotController) :
    ∃ m, writes (handleGetStatusCommand r).trace = [m] ∧ m.Type_ ∈ outboundTypes :=
  sendMessage_one [] rfl _ _ (by simp [outboundTypes])

/-- Handling a frame writes exactly one message, of one of the four types, unless
the driver call of a disconnect panicked -/
theorem handleFrame_one_or_panic (env : Env) (r : RobotController) (rawMsg : RawMsg) :
    (∃ m, writes (handleFrame env r rawMsg).trace = [m] ∧ m.Type_ ∈ outboundTypes) ∨
      (handleFrame env r rawMsg).panicked = true := by
  unfold handleFrame
  split
  · exact Or.inl (sendError_one [] rfl _)
  · split
    · exact Or.inl (sendError_one [] rfl _)
    · split
      · exact Or.inl (handleConnectCommand_one r)
      · split
        · exact handleDisconnectCommand_one env r
        · split
          · exact Or.inl (handleMoveMotorCommand_one env r rawMsg)
          · split
            · exact Or.inl (handleStopMotorCommand_one env r rawMsg)
            · split
              · exact Or.inl (handleStopAllCommand_one env r)
              · split
                · exact Or.inl (handleGetStatusCommand_one r)
                · exact Or.inl (sendError_one [] rfl _)

theorem handleFrame_one (env : Env) (r : RobotController) (rawMsg : RawMsg)
    (hp : (handleFrame env r rawMsg).panicked = false) :
    ∃ m, writes (handleFrame env r rawMsg).trace = [m] ∧ m.Type_ ∈ outboundTypes := by
  rcases handleFrame_one_or_panic env r rawMsg with h | h
  · exact h
  · rw [hp] at h
    exact absurd h (by decide)

/-- While every read succeeds and no panic is raised, the loop keeps running and
has written one message per frame -/
theorem readLoop_all_read (frames : List (RawMsg × Env)) (r : RobotController)
    (hp : (readLoop r
      (frames.map (fun p => { result := Except.ok p.1, env := p.2 }))).panicked = false) :
    (readLoop r (frames.map (fun p => { result := Except.ok p.1, env := p.2 }))).ret = true ∧
      (writes (readLoop r
        (frames.map (fun p => { result := Except.ok p.1, env := p.2 }))).trace).length
        = frames.length := by
  induction frames generalizing r with
  | nil => exact ⟨rfl, rfl⟩
  | cons p rest ih =>
    simp only [List.map_cons, readLoop] at hp ⊢
    cases hq : (handleFrame p.2 r p.1).panicked with
    | true => simp [hq] at hp
    | false =>
      simp only [hq, Bool.false_eq_true, if_false] at hp ⊢
      obtain ⟨m, hm, _⟩ := handleFrame_one p.2 r p.1 hq
      have h := ih (handleFrame p.2 r p.1).state hp
      simp only [writes_append, hm, List.length_append, List.length_cons, List.length_nil]
      exact ⟨h.1, by rw [h.2]; omega⟩

/-! ## The session core (controller.go) -/

/-- C1: on a session whose connected flag is false, SendCommand returns the error
"not connected to device" for every command, goes no further than its entry (no
logger line, no driver call: the mocked BLE write is not reached), and leaves the
connected flag and the device handle as they were. -/
theorem C1_sendCommand_disconnected (env : Env) (r : RobotController) (cmd : MotorCommand)
    (h : r.connected = false) :
    (SendCommand env r cmd).ret = some "not connected to device" ∧
      (SendCommand env r cmd).trace = [Event.sendCommand cmd] ∧
      driverSteps (SendCommand env r cmd).trace = [] ∧
      (SendCommand env r cmd).state = r := by
  simp [SendCommand, h, driverSteps]

theorem C1_sendCommand_disconnected_witness :
    NewRobotController.connected = false ∧
      (SendCommand okEnv NewRobotController { Motor := 1, Direction := "forward", Speed := 50 }).ret
        = some "not connected to device" ∧
      (SendCommand okEnv NewRobotController { Motor := 1, Direction := "forward", Speed := 50 }).trace
        = [Event.sendCommand { Motor := 1, Direction := "forward", Speed := 50 }] ∧
      driverSteps
        (SendCommand okEnv NewRobotController
          { Motor := 1, Direction := "forward", Speed := 50 }).trace = [] ∧
      (SendCommand okEnv NewRobotController { Motor := 1, Direction := "forward", Speed := 50 }).state
        = NewRobotController :=
  ⟨rfl, C1_sendCommand_disconnected okEnv NewRobotController
    { Motor := 1, Direction := "forward", Speed := 50 } rfl⟩

/-- C2, as stated, fails: on a Connected session holding the mock device, when the
driver's disconnect fails with "timeout", Disconnect returns the wrapped error and
the session is still Connected afterwards. It also fails without any driver error
on the state Connect(nil) leaves (connected flag set, no handle): Disconnect
returns nil and the flag stays set. -/
theorem C2_counterexample :
    ((Disconnect { marshal := okEnv.marshal, deviceDisconnect := some "timeout" }
        { device := some mockDevice, connected := true }).ret
        = some "disconnect failed: timeout" ∧
      ¬ (Disconnect { marshal := okEnv.marshal, deviceDisconnect := some "timeout" }
        { device := some mockDevice, connected := true }).state.connected = false) ∧
    ((Disconnect okEnv (Connect NewRobotController none).state).ret = none ∧
      ¬ (Disconnect okEnv (Connect NewRobotController none).state).state.connected = false) := by
  decide

/-- C2, amended: when Disconnect returns ok on a session that holds a handle, the
session is Disconnected afterwards; when the session is Connected with a handle and
the driver's disconnect fails with e, Disconnect calls the driver once, returns
"disconnect failed: e" to the caller and leaves the session unchanged, so it is
still Connected. -/
theorem C2_disconnect_amended (env : Env) (r : RobotController) :
    ((Disconnect env r).ret = none → r.device ≠ none →
        (Disconnect env r).state.connected = false) ∧
      (∀ d e, r.device = some d → r.connected = true → env.deviceDisconnect = some e →
        (Disconnect env r).ret = some ("disconnect failed: " ++ e) ∧
        (Disconnect env r).trace = [Event.deviceDisconnect d] ∧
        (Disconnect env r).state = r) := by
  constructor
  · intro hret hdev
    unfold Disconnect at hret ⊢
    cases hd : r.device with
    | none => exact absurd hd hdev
    | some d =>
      cases hc : r.connected with
      | false => simp [hc]
      | true =>
        cases he : env.deviceDisconnect with
        | none =>
          cases hp : env.devicePanics with
          | false => simp [hc, he, hp]
          | true => simp [hd, hc, he, hp] at hret
        | some e => simp [hd, hc, he] at hret
  · intro d e hd hc he
    simp [Disconnect, hd, hc, he]

theorem C2_disconnect_amended_witness :
    ((Disconnect okEnv { device := some mockDevice, connected := true }).ret = none ∧
        (some mockDevice : Option Device) ≠ none ∧
        (Disconnect okEnv { device := some mockDevice, connected := true }).state.connected
          = false) ∧
      ((Disconnect { marshal := okEnv.marshal, deviceDisconnect := some "timeout" }
          { device := some mockDevice, connected := true }).ret
          = some ("disconnect failed: " ++ "timeout") ∧
        (Disconnect { marshal := okEnv.marshal, deviceDisconnect := some "timeout" }
          { device := some mockDevice, connected := true }).trace
          = [Event.deviceDisconnect mockDevice] ∧
        (Disconnect { marshal := okEnv.marshal, deviceDisconnect := some "timeout" }
          { device := some mockDevice, connected := true }).state
          = { device := some mockDevice, connected := true }) :=
  ⟨⟨rfl, by simp,
      (C2_disconnect_amended okEnv { device := some mockDevice, connected := true }).1
        rfl (by simp)⟩,
    (C2_disconnect_amended { marshal := okEnv.marshal, deviceDisconnect := some "timeout" }
      { device := some mockDevice, connected := true }).2 mockDevice "timeout" rfl rfl rfl⟩

/-- C3, as stated, fails: after Connect with the mock device and a Disconnect that
the driver accepts, the session is Disconnected while the handle is still stored,
and GetDeviceInfo still reports the device. And after Connect(nil) the session is
Connected with no handle. -/
theorem C3_counterexample :
    ((runOps NewRobotController
        [Op.connect (some mockDevice), Op.disconnect okEnv]).connected = false ∧
      (runOps NewRobotController
        [Op.connect (some mockDevice), Op.disconnect okEnv]).device = some mockDevice ∧
      GetDeviceInfo (runOps NewRobotController
        [Op.connect (some mockDevice), Op.disconnect okEnv])
        = "Device: 00:00:00:00:00:00 (ESP32-RobotArm)") ∧
    ((runOps NewRobotController [Op.connect none]).connected = true ∧
      (runOps NewRobotController [Op.connect none]).device = none) := by
  decide

/-- C3, amended: in every state reached from NewRobotController by a sequence of
Connect, Disconnect, SendCommand and StopAllMotors calls in which every Connect
passes a handle (not nil), a Connected session holds a handle. The converse is not
claimed: Disconnect keeps the handle stored. -/
theorem C3_connected_holds_handle (ops : List Op)
    (h : ∀ op ∈ ops, op ≠ Op.connect none) :
    (runOps NewRobotController ops).connected = true →
      (runOps NewRobotController ops).device ≠ none := by
  have step : ∀ (r : RobotController) (op : Op), op ≠ Op.connect none →
      (r.connected = true → r.device ≠ none) →
      ((Op.apply r op).connected = true → (Op.apply r op).device ≠ none) := by
    intro r op hop hinv
    cases op with
    | connect device =>
      cases device with
      | none => exact absurd rfl hop
      | some d => intro _; simp [Op.apply, Connect]
    | disconnect env =>
      simp only [Op.apply, Disconnect]
      cases hd : r.device with
      | none =>
        intro hc
        exact absurd hd (hinv hc)
      | some d =>
        cases hc : r.connected with
        | false => simp [hc, hd]
        | true =>
          cases he : env.deviceDisconnect <;> cases hp : env.devicePanics <;>
            simp [hc, hd, he, hp]
    | sendCommand env cmd => simpa [Op.apply, SendCommand_state] using hinv
    | stopAllMotors env => simpa [Op.apply, StopAllMotors_state] using hinv
  have gen : ∀ (l : List Op) (r : RobotController), (∀ op ∈ l, op ≠ Op.connect none) →
      (r.connected = true → r.device ≠ none) →
      ((runOps r l).connected = true → (runOps r l).device ≠ none) := by
    intro l
    induction l with
    | nil => intro r _ hinv; simpa [runOps] using hinv
    | cons op rest ih =>
      intro r hall hinv
      have h1 := step r op (hall op (List.mem_cons_self op rest)) hinv
      have h2 := ih (Op.apply r op) (fun x hx => hall x (List.mem_cons_of_mem op hx)) h1
      simpa [runOps] using h2
  exact gen ops NewRobotController h (by simp [NewRobotController])

theorem C3_connected_holds_handle_witness :
    (∀ op ∈ [Op.connect (some mockDevice), Op.stopAllMotors okEnv], op ≠ Op.connect none) ∧
      ((runOps NewRobotController
          [Op.connect (some mockDevice), Op.stopAllMotors okEnv]).connected = true →
        (runOps NewRobotController
          [Op.connect (some mockDevice), Op.stopAllMotors okEnv]).device ≠ none) ∧
      (runOps NewRobotController
          [Op.connect (some mockDevice), Op.stopAllMotors okEnv]).connected = true :=
  ⟨by simp,
    C3_connected_holds_handle [Op.connect (some mockDevice), Op.stopAllMotors okEnv] (by simp),
    by decide⟩

/-- C4, what the code does: on a Connected session on which json.Marshal succeeds,
StopAllMotors returns nil after exactly three SendCommand calls, for motors 0, 1, 2
in that order, each with speed 0 and with direction "forward" (not "stop"). -/
theorem C4_stopAllMotors_commands (env : Env) (r : RobotController)
    (hc : r.connected = true) (hm : ∀ cmd, ∃ js, env.marshal cmd = Except.ok js) :
    (StopAllMotors env r).ret = none ∧
      sendCalls (StopAllMotors env r).trace =
        [{ Motor := 0, Direction := "forward", Speed := 0 },
         { Motor := 1, Direction := "forward", Speed := 0 },
         { Motor := 2, Direction := "forward", Speed := 0 }] := by
  have hall : ∀ m ∈ List.range 3, (SendCommand env r (stopAllCmd m)).ret = none := by
    intro m _
    obtain ⟨js, hjs⟩ := hm (stopAllCmd m)
    exact SendCommand_ret_ok env r _ js hc hjs
  have h := stopAllLoop_all_ok env r (List.range 3) hall
  refine ⟨by simpa [StopAllMotors] using h.1, ?_⟩
  simp only [StopAllMotors, sendCalls, h.2]
  decide

theorem C4_stopAllMotors_commands_witness :
    ({ device := some mockDevice, connected := true } : RobotController).connected = true ∧
      (∀ cmd, ∃ js, okEnv.marshal cmd = Except.ok js) ∧
      (StopAllMotors okEnv { device := some mockDevice, connected := true }).ret = none ∧
      sendCalls (StopAllMotors okEnv { device := some mockDevice, connected := true }).trace =
        [{ Motor := 0, Direction := "forward", Speed := 0 },
         { Motor := 1, Direction := "forward", Speed := 0 },
         { Motor := 2, Direction := "forward", Speed := 0 }] :=
  ⟨rfl, fun _ => ⟨_, rfl⟩,
    C4_stopAllMotors_commands okEnv { device := some mockDevice, connected := true } rfl
      (fun _ => ⟨_, rfl⟩)⟩

/-- C5: StopAllMotors is fail-fast. If the send for motor k (k among 0, 1, 2) fails
with e and the sends for all smaller indices succeed, StopAllMotors returns the
error "failed to stop motor k: e" and SendCommand was entered exactly for the
indices 0..k, in order: no send is attempted for an index greater than k. -/
theorem C5_stopAllMotors_fail_fast (env : Env) (r : RobotController) (k : Nat) (e : String)
    (hk : k < 3)
    (hprev : ∀ j, j < k → (SendCommand env r (stopAllCmd j)).ret = none)
    (hfail : (SendCommand env r (stopAllCmd k)).ret = some e) :
    (StopAllMotors env r).ret = some ("failed to stop motor " ++ toString k ++ ": " ++ e) ∧
      sendCalls (StopAllMotors env r).trace = (List.range (k + 1)).map stopAllCmd := by
  have hsplit : List.range 3 = List.range k ++ k :: (List.range' (k + 1) (2 - k)) := by
    interval_cases k <;> decide
  have hpre : ∀ m ∈ List.range k, (SendCommand env r (stopAllCmd m)).ret = none :=
    fun m hm => hprev m (List.mem_range.mp hm)
  have h := stopAllLoop_first_failure env r (List.range k) (List.range' (k + 1) (2 - k)) k e
    hpre hfail
  rw [← hsplit] at h
  refine ⟨by simpa [StopAllMotors] using h.1, ?_⟩
  have hr : List.range (k + 1) = List.range k ++ [k] := List.range_succ k
  simp only [StopAllMotors, sendCalls]
  rw [h.2, hr]

theorem C5_stopAllMotors_fail_fast_witness :
    ((1 : Nat) < 3 ∧
      (∀ j, j < 1 → (SendCommand (marshalFailsOn 1)
          { device := some mockDevice, connected := true } (stopAllCmd j)).ret = none) ∧
      (SendCommand (marshalFailsOn 1) { device := some mockDevice, connected := true }
          (stopAllCmd 1)).ret = some "failed to marshal command: unsupported value" ∧
      (StopAllMotors (marshalFailsOn 1) { device := some mockDevice, connected := true }).ret
        = some "failed to stop motor 1: failed to marshal command: unsupported value" ∧
      sendCalls
          (StopAllMotors (marshalFailsOn 1) { device := some mockDevice, connected := true }).trace
        = [stopAllCmd 0, stopAllCmd 1]) ∧
    ((StopAllMotors okEnv NewRobotController).ret
        = some "failed to stop motor 0: not connected to device" ∧
      sendCalls (StopAllMotors okEnv NewRobotController).trace = [stopAllCmd 0]) :=
  ⟨⟨by decide,
      by intro j hj; interval_cases j; decide,
      by decide,
      C5_stopAllMotors_fail_fast (marshalFailsOn 1) { device := some mockDevice, connected := true }
        1 "failed to marshal command: unsupported value" (by decide)
        (by intro j hj; interval_cases j; decide) (by decide)⟩,
    C5_stopAllMotors_fail_fast okEnv NewRobotController 0 "not connected to device" (by decide)
      (by intro j hj; omega) (by decide)⟩

/-! ## The move-motor path (handlers.go, websocket.go) -/

/-- C6, as stated, fails: on a Connected session the streaming frame move_motor with
motor 1, direction forward, speed 150 and the REST body binding to the same command
are both passed to SendCommand with speed 150 and answered with success. -/
theorem C6_counterexample :
    sendCalls (handleFrame okEnv connectedSession (moveFrame 1 "forward" 150)).trace
        = [{ Motor := 1, Direction := "forward", Speed := 150 }] ∧
      writes (handleFrame okEnv connectedSession (moveFrame 1 "forward" 150)).trace
        = [{ Type_ := "motor_command",
             Data := some (Payload.motorResult true "Motor command sent") }] ∧
      sendCalls (MoveMotor okEnv connectedSession
          (Except.ok { Motor := 1, Direction := "forward", Speed := 150 })).trace
        = [{ Motor := 1, Direction := "forward", Speed := 150 }] ∧
      responses (MoveMotor okEnv connectedSession
          (Except.ok { Motor := 1, Direction := "forward", Speed := 150 })).trace
        = [(200, { Status := "success", Message := "Motor command sent" })] := by
  decide

/-- C6, amended: the move-motor path does not check the speed. On a Connected
session, a streaming move_motor frame whose speed is an integer s outside [0,100]
is passed to SendCommand with the speed unchanged (not clamped) and answered with
success whenever json.Marshal succeeds, provided s and the motor index m are
integers that the float64 of the decoded frame holds exactly (as every integer of
magnitude below 2^53 is) and that lie in the range of int. A REST command, which
is bound to int fields directly, is passed unchanged and answered with success for
every speed outside [0,100]. -/
theorem C6_speed_not_validated (env : Env) (r : RobotController) (rawMsg : RawMsg)
    (m s : Int) (d : String)
    (hc : r.connected = true)
    (hcmd : frameCommand rawMsg = some "move_motor")
    (hm : List.lookup "motor" rawMsg = some (Value.number (float64OfInt m)))
    (hd : List.lookup "direction" rawMsg = some (Value.string d))
    (hs : List.lookup "speed" rawMsg = some (Value.number (float64OfInt s)))
    (hmx : float64OfInt m = (m : Rat)) (hsx : float64OfInt s = (s : Rat))
    (hmr : -(2 ^ 63 : Int) ≤ m ∧ m < 2 ^ 63) (hsr : -(2 ^ 63 : Int) ≤ s ∧ s < 2 ^ 63)
    (_hout : s < 0 ∨ 100 < s) :
    sendCalls (handleFrame env r rawMsg).trace
        = [{ Motor := m, Direction := d, Speed := s }] ∧
      (∀ js, env.marshal { Motor := m, Direction := d, Speed := s } = Except.ok js →
        writes (handleFrame env r rawMsg).trace
          = [{ Type_ := "motor_command",
               Data := some (Payload.motorResult true "Motor command sent") }]) ∧
      (∀ cmd : MotorCommand, cmd.Speed < 0 ∨ 100 < cmd.Speed →
        sendCalls (MoveMotor env r (Except.ok cmd)).trace = [cmd] ∧
        (∀ js, env.marshal cmd = Except.ok js →
          responses (MoveMotor env r (Except.ok cmd)).trace
            = [(200, { Status := "success", Message := "Motor command sent" })])) := by
  rw [hmx] at hm
  rw [hsx] at hs
  have h := handleMoveMotorCommand_connected env r rawMsg (m : Rat) (s : Rat) d hc hm hd hs
  rw [intOfFloat64_intCast m hmr.1 hmr.2, intOfFloat64_intCast s hsr.1 hsr.2] at h
  rw [handleFrame_move_motor env r rawMsg hcmd]
  exact ⟨h.1, h.2.2, fun cmd _ =>
    ⟨MoveMotor_sendCalls env r cmd, fun js hjs => MoveMotor_success env r cmd js hc hjs⟩⟩

theorem C6_speed_not_validated_witness :
    connectedSession.connected = true ∧
      frameCommand (moveFrame 1 "forward" 150) = some "move_motor" ∧
      float64OfInt 150 = ((150 : Int) : Rat) ∧
      ((150 : Int) < 0 ∨ (100 : Int) < 150) ∧
      sendCalls (handleFrame okEnv connectedSession (moveFrame 1 "forward" 150)).trace
        = [{ Motor := 1, Direction := "forward", Speed := 150 }] :=
  ⟨rfl, rfl, float64OfInt_small 150 (by decide), by decide,
    (C6_speed_not_validated okEnv connectedSession (moveFrame 1 "forward" 150) 1 150 "forward"
      rfl rfl rfl rfl rfl (float64OfInt_small 1 (by decide)) (float64OfInt_small 150 (by decide))
      (by decide) (by decide) (by decide)).1⟩

/-- C7, as stated, fails: on a Connected session the streaming frame move_motor with
direction FORWARD (upper case) and the REST body binding to the same command are
passed to SendCommand as they are and answered with success. -/
theorem C7_counterexample :
    sendCalls (handleFrame okEnv connectedSession (moveFrame 1 "FORWARD" 50)).trace
        = [{ Motor := 1, Direction := "FORWARD", Speed := 50 }] ∧
      writes (handleFrame okEnv connectedSession (moveFrame 1 "FORWARD" 50)).trace
        = [{ Type_ := "motor_command",
             Data := some (Payload.motorResult true "Motor command sent") }] ∧
      sendCalls (MoveMotor okEnv connectedSession
          (Except.ok { Motor := 1, Direction := "FORWARD", Speed := 50 })).trace
        = [{ Motor := 1, Direction := "FORWARD", Speed := 50 }] ∧
      responses (MoveMotor okEnv connectedSession
          (Except.ok { Motor := 1, Direction := "FORWARD", Speed := 50 })).trace
        = [(200, { Status := "success", Message := "Motor command sent" })] := by
  decide

/-- C7, amended: the move-motor path does not check the direction. On a Connected
session, a streaming move_motor frame whose direction is a string d other than
"forward", "backward" and "stop" (motor and speed integers within the range of
int) and a REST command with such a direction are passed to SendCommand with the
direction d unchanged (it is not replaced by stop), and are answered with success
whenever json.Marshal succeeds. -/
theorem C7_direction_not_validated (env : Env) (r : RobotController) (rawMsg : RawMsg)
    (m s : Int) (d : String)
    (hc : r.connected = true)
    (hcmd : frameCommand rawMsg = some "move_motor")
    (hm : List.lookup "motor" rawMsg = some (Value.number (m : Rat)))
    (hd : List.lookup "direction" rawMsg = some (Value.string d))
    (hs : List.lookup "speed" rawMsg = some (Value.number (s : Rat)))
    (hmr : -(2 ^ 63 : Int) ≤ m ∧ m < 2 ^ 63) (hsr : -(2 ^ 63 : Int) ≤ s ∧ s < 2 ^ 63)
    (_hbad : d ≠ "forward" ∧ d ≠ "backward" ∧ d ≠ "stop") :
    sendCalls (handleFrame env r rawMsg).trace
        = [{ Motor := m, Direction := d, Speed := s }] ∧
      (∀ js, env.marshal { Motor := m, Direction := d, Speed := s } = Except.ok js →
        writes (handleFrame env r rawMsg).trace
          = [{ Type_ := "motor_command",
               Data := some (Payload.motorResult true "Motor command sent") }]) ∧
      (∀ cmd : MotorCommand,
        cmd.Direction ≠ "forward" ∧ cmd.Direction ≠ "backward" ∧ cmd.Direction ≠ "stop" →
        sendCalls (MoveMotor env r (Except.ok cmd)).trace = [cmd] ∧
        (∀ js, env.marshal cmd = Except.ok js →
          responses (MoveMotor env r (Except.ok cmd)).trace
            = [(200, { Status := "success", Message := "Motor command sent" })])) := by
  have h := handleMoveMotorCommand_connected env r rawMsg (m : Rat) (s : Rat) d hc hm hd hs
  rw [intOfFloat64_intCast m hmr.1 hmr.2, intOfFloat64_intCast s hsr.1 hsr.2] at h
  rw [handleFrame_move_motor env r rawMsg hcmd]
  exact ⟨h.1, h.2.2, fun cmd _ =>
    ⟨MoveMotor_sendCalls env r cmd, fun js hjs => MoveMotor_success env r cmd js hc hjs⟩⟩

theorem C7_direction_not_validated_witness :
    connectedSession.connected = true ∧
      frameCommand (moveFrame 1 "FORWARD" 50) = some "move_motor" ∧
      ("FORWARD" ≠ "forward" ∧ "FORWARD" ≠ "backward" ∧ "FORWARD" ≠ "stop") ∧
      sendCalls (handleFrame okEnv connectedSession (moveFrame 1 "FORWARD" 50)).trace
        = [{ Motor := 1, Direction := "FORWARD", Speed := 50 }] :=
  ⟨rfl, rfl, by decide,
    (C7_direction_not_validated okEnv connectedSession (moveFrame 1 "FORWARD" 50) 1 50 "FORWARD"
      rfl rfl rfl rfl rfl (by decide) (by decide) (by decide)).1⟩

/-- C8, as stated, fails: on a Connected session the move_motor frame with motor
index 9223372036854775808 (2^63, an integer ≥ 0 that a float64 holds exactly),
direction forward and speed 50 is answered with success, but the command handed to
SendCommand has motor -9223372036854775808; and the frame with motor index
9007199254740993 (2^53 + 1) is decoded to the float64 2^53, so the command has
motor 9007199254740992. -/
theorem C8_counterexample :
    (sendCalls (handleFrame okEnv connectedSession
        (moveFrame 9223372036854775808 "forward" 50)).trace
        = [{ Motor := -9223372036854775808, Direction := "forward", Speed := 50 }] ∧
      writes (handleFrame okEnv connectedSession
        (moveFrame 9223372036854775808 "forward" 50)).trace
        = [{ Type_ := "motor_command",
             Data := some (Payload.motorResult true "Motor command sent") }]) ∧
    sendCalls (handleFrame okEnv connectedSession
        (moveFrame 9007199254740993 "forward" 50)).trace
      = [{ Motor := 9007199254740992, Direction := "forward", Speed := 50 }] := by
  decide

/-- C8, amended: on a Connected session, a streaming move_motor frame with an
integer motor index m ≥ 0 that the float64 of the decoded frame holds exactly (as
every integer below 2^53 is) and that is below 2^63, a direction d among forward,
backward, stop and an integer speed s in [0,100] hands to SendCommand exactly the
command with motor m, direction d, speed s, and (json.Marshal succeeding) writes
exactly one message, of type motor_command with success = true. -/
theorem C8_move_motor_success (env : Env) (r : RobotController) (rawMsg : RawMsg)
    (m s : Int) (d js : String)
    (hc : r.connected = true)
    (hcmd : frameCommand rawMsg = some "move_motor")
    (hm : List.lookup "motor" rawMsg = some (Value.number (float64OfInt m)))
    (hd : List.lookup "direction" rawMsg = some (Value.string d))
    (hs : List.lookup "speed" rawMsg = some (Value.number (float64OfInt s)))
    (hmx : float64OfInt m = (m : Rat))
    (hm0 : 0 ≤ m) (hm1 : m < 2 ^ 63)
    (_hdir : d = "forward" ∨ d = "backward" ∨ d = "stop")
    (hs0 : 0 ≤ s) (hs1 : s ≤ 100)
    (hjs : env.marshal { Motor := m, Direction := d, Speed := s } = Except.ok js) :
    sendCalls (handleFrame env r rawMsg).trace
        = [{ Motor := m, Direction := d, Speed := s }] ∧
      writes (handleFrame env r rawMsg).trace
        = [{ Type_ := "motor_command",
             Data := some (Payload.motorResult true "Motor command sent") }] := by
  rw [hmx] at hm
  rw [float64OfInt_small s (by omega)] at hs
  have h := handleMoveMotorCommand_connected env r rawMsg (m : Rat) (s : Rat) d hc hm hd hs
  rw [intOfFloat64_intCast m (by omega) hm1, intOfFloat64_intCast s (by omega) (by omega)] at h
  rw [handleFrame_move_motor env r rawMsg hcmd]
  exact ⟨h.1, h.2.2 js hjs⟩

theorem C8_move_motor_success_witness :
    connectedSession.connected = true ∧
      frameCommand (moveFrame 1 "forward" 50) = some "move_motor" ∧
      float64OfInt 1 = ((1 : Int) : Rat) ∧
      sendCalls (handleFrame okEnv connectedSession (moveFrame 1 "forward" 50)).trace
        = [{ Motor := 1, Direction := "forward", Speed := 50 }] ∧
      writes (handleFrame okEnv connectedSession (moveFrame 1 "forward" 50)).trace
        = [{ Type_ := "motor_command",
             Data := some (Payload.motorResult true "Motor command sent") }] :=
  ⟨rfl, rfl, float64OfInt_small 1 (by decide),
    C8_move_motor_success okEnv connectedSession (moveFrame 1 "forward" 50) 1 50 "forward" _
      rfl rfl rfl rfl rfl (float64OfInt_small 1 (by decide)) (by decide) (by decide)
      (by decide) (by decide) (by decide) rfl⟩

/-- C9: on a session whose connected flag is false, a frame whose discriminator is
move_motor or stop_motor, whatever its other fields, produces exactly one event:
the write of the error message "Not connected to robot". SendCommand is not
entered, no logger line or driver call is made, and the session is unchanged. -/
theorem C9_not_connected (env : Env) (r : RobotController) (rawMsg : RawMsg)
    (hc : r.connected = false)
    (hcmd : frameCommand rawMsg = some "move_motor" ∨ frameCommand rawMsg = some "stop_motor") :
    (handleFrame env r rawMsg).trace
        = [Event.writeJSON { Type_ := "error", Message := "Not connected to robot" }] ∧
      sendCalls (handleFrame env r rawMsg).trace = [] ∧
      driverSteps (handleFrame env r rawMsg).trace = [] ∧
      (handleFrame env r rawMsg).state = r := by
  rcases hcmd with h | h
  · rw [handleFrame_move_motor env r rawMsg h]
    simp [handleMoveMotorCommand, IsConnected, hc, sendError, sendCalls, driverSteps]
  · rw [handleFrame_stop_motor env r rawMsg h]
    simp [handleStopMotorCommand, IsConnected, hc, sendError, sendCalls, driverSteps]

theorem C9_not_connected_witness :
    NewRobotController.connected = false ∧
      (frameCommand (moveFrame 1 "forward" 50) = some "move_motor" ∨
        frameCommand (moveFrame 1 "forward" 50) = some "stop_motor") ∧
      (handleFrame okEnv NewRobotController (moveFrame 1 "forward" 50)).trace
        = [Event.writeJSON { Type_ := "error", Message := "Not connected to robot" }] ∧
      sendCalls (handleFrame okEnv NewRobotController (moveFrame 1 "forward" 50)).trace = [] ∧
      driverSteps (handleFrame okEnv NewRobotController (moveFrame 1 "forward" 50)).trace = [] ∧
      (handleFrame okEnv NewRobotController (moveFrame 1 "forward" 50)).state
        = NewRobotController :=
  ⟨rfl, Or.inl rfl,
    C9_not_connected okEnv NewRobotController (moveFrame 1 "forward" 50) rfl (Or.inl rfl)⟩

/-! ## The streaming loop (websocket.go) -/

/-- C10, what the code does: handling a frame writes exactly one message, of
type connection_status, motor_command, status or error, unless the driver call of
a disconnect panics. It does on the zero Device that the scan returns: on a fresh
session, after the connect frame has been answered, the disconnect frame gets no
message at all and the panic ends the loop, so the get_status frame that follows
is never handled. -/
theorem C10_disconnect_frame_panics :
    (∀ (env : Env) (r : RobotController) (rawMsg : RawMsg),
      (∃ m, writes (handleFrame env r rawMsg).trace = [m] ∧
        m.Type_ ∈ ["connection_status", "motor_command", "status", "error"]) ∨
      (handleFrame env r rawMsg).panicked = true) ∧
    (writes (handleFrame zeroDeviceEnv connectedSession (commandFrame "disconnect")).trace = [] ∧
      (handleFrame zeroDeviceEnv connectedSession (commandFrame "disconnect")).panicked = true) ∧
    (writes (readLoop NewRobotController
        [{ result := Except.ok (commandFrame "connect"), env := zeroDeviceEnv },
         { result := Except.ok (commandFrame "disconnect"), env := zeroDeviceEnv },
         { result := Except.ok (commandFrame "get_status"), env := zeroDeviceEnv }]).trace
        = [{ Type_ := "connection_status",
             Data := some (Payload.connectionStatus
               { Connected := true, Message := "Connected to robot" }) }] ∧
      (readLoop NewRobotController
        [{ result := Except.ok (commandFrame "connect"), env := zeroDeviceEnv },
         { result := Except.ok (commandFrame "disconnect"), env := zeroDeviceEnv },
         { result := Except.ok (commandFrame "get_status"), env := zeroDeviceEnv }]).ret = false ∧
      (readLoop NewRobotController
        [{ result := Except.ok (commandFrame "connect"), env := zeroDeviceEnv },
         { result := Except.ok (commandFrame "disconnect"), env := zeroDeviceEnv },
         { result := Except.ok (commandFrame "get_status"), env := zeroDeviceEnv }]).panicked
        = true) :=
  ⟨fun env r rawMsg => handleFrame_one_or_panic env r rawMsg, by decide, by decide⟩

/-! ## The discriminator of a frame -/

theorem lookup_cons_ne (k k2 : String) (v : Value) (rawMsg : RawMsg) (h : k ≠ k2) :
    List.lookup k ((k2, v) :: rawMsg) = List.lookup k rawMsg := by
  have hb : (k == k2) = false := by simpa using h
  rw [List.lookup_cons, hb]

/-- The handler of move_motor reads the keys motor, direction and speed only -/
theorem handleMoveMotorCommand_cons (env : Env) (r : RobotController) (rawMsg : RawMsg)
    (k : String) (v : Value) (h1 : "motor" ≠ k) (h2 : "direction" ≠ k) (h3 : "speed" ≠ k) :
    handleMoveMotorCommand env r ((k, v) :: rawMsg) = handleMoveMotorCommand env r rawMsg := by
  unfold handleMoveMotorCommand
  rw [lookup_cons_ne _ _ _ _ h1, lookup_cons_ne _ _ _ _ h2, lookup_cons_ne _ _ _ _ h3]

/-- The handler of stop_motor reads the key motor only -/
theorem handleStopMotorCommand_cons (env : Env) (r : RobotController) (rawMsg : RawMsg)
    (k : String) (v : Value) (h1 : "motor" ≠ k) :
    handleStopMotorCommand env r ((k, v) :: rawMsg) = handleStopMotorCommand env r rawMsg := by
  unfold handleStopMotorCommand
  rw [lookup_cons_ne _ _ _ _ h1]

/-- Two frames with the same discriminator that differ in a key other than motor,
direction and speed are handled alike -/
theorem handleFrame_cons (env : Env) (r : RobotController) (rawMsg : RawMsg)
    (k : String) (v : Value) (h1 : "motor" ≠ k) (h2 : "direction" ≠ k) (h3 : "speed" ≠ k)
    (hc : frameCommand ((k, v) :: rawMsg) = frameCommand rawMsg) :
    handleFrame env r ((k, v) :: rawMsg) = handleFrame env r rawMsg := by
  unfold handleFrame
  rw [hc, handleMoveMotorCommand_cons env r rawMsg k v h1 h2 h3,
    handleStopMotorCommand_cons env r rawMsg k v h1]

/-- A frame whose discriminator is none of the six known ones, and not empty, gets
the unknown-command error and nothing else -/
theorem handleFrame_unknown (env : Env) (r : RobotController) (rawMsg : RawMsg) (v : String)
    (hcmd : frameCommand rawMsg = some v) (hne : v ≠ "") (hk : v ∉ knownCommands) :
    handleFrame env r rawMsg
      = { ret := (), state := r, trace := sendError ("Unknown command: '" ++ v ++ "'") } := by
  simp only [knownCommands, List.mem_cons, List.mem_singleton, List.not_mem_nil, or_false,
    not_or] at hk
  obtain ⟨h1, h2, h3, h4, h5, h6⟩ := hk
  simp [handleFrame, hcmd, hne, h1, h2, h3, h4, h5, h6]

/-- C11, as stated, fails: in the frame with command 5 (a number) and type
get_status both fields are present, yet the frame is dispatched on type: the
answer is the status message, where a dispatch on the value of command would
answer with an error. -/
theorem C11_counterexample :
    List.lookup "command"
        [("command", Value.number 5), ("type", Value.string "get_status")]
        = some (Value.number 5) ∧
      frameCommand [("command", Value.number 5), ("type", Value.string "get_status")]
        = some "get_status" ∧
      writes (handleFrame okEnv NewRobotController
          [("command", Value.number 5), ("type", Value.string "get_status")]).trace
        = [{ Type_ := "status", Data := some (Payload.status false 1) }] := by
  refine ⟨rfl, rfl, ?_⟩
  decide

/-- C11, amended: for every frame whose command field is a string c, the
discriminator is c, and a type field in the frame has no influence on how the frame
is handled; type is used only when command is absent or is not a string, and then
the discriminator is the type field if that is a string. -/
theorem C11_command_string_priority (env : Env) (r : RobotController) (rawMsg : RawMsg) :
    (∀ c, List.lookup "command" rawMsg = some (Value.string c) →
      frameCommand rawMsg = some c ∧
      ∀ v, handleFrame env r (("type", v) :: rawMsg) = handleFrame env r rawMsg) ∧
    (asString (List.lookup "command" rawMsg) = none →
      frameCommand rawMsg = asString (List.lookup "type" rawMsg)) := by
  constructor
  · intro c hc
    have h0 : frameCommand rawMsg = some c := by simp [frameCommand, hc, asString]
    refine ⟨h0, fun v => ?_⟩
    have h1 : frameCommand (("type", v) :: rawMsg) = some c := by
      simp [frameCommand, List.lookup_cons, hc, asString]
    exact handleFrame_cons env r rawMsg "type" v (by decide) (by decide) (by decide)
      (h1.trans h0.symm)
  · intro hn
    simp [frameCommand, hn]

theorem C11_command_string_priority_witness :
    List.lookup "command" [("command", Value.string "get_status"), ("type", Value.string "connect")]
        = some (Value.string "get_status") ∧
      frameCommand [("command", Value.string "get_status"), ("type", Value.string "connect")]
        = some "get_status" ∧
      asString (List.lookup "command" [("type", Value.string "connect")]) = none ∧
      frameCommand [("type", Value.string "connect")]
        = asString (List.lookup "type" [("type", Value.string "connect")]) :=
  ⟨rfl,
    ((C11_command_string_priority okEnv NewRobotController
      [("command", Value.string "get_status"), ("type", Value.string "connect")]).1
        "get_status" rfl).1,
    rfl,
    (C11_command_string_priority okEnv NewRobotController
      [("type", Value.string "connect")]).2 rfl⟩

/-- C12: a frame with neither a command nor a type field produces exactly the
write of the error "No command or type field found", and a frame whose
discriminator is the empty string exactly the write of the error "Empty command
received". In both cases nothing else happens (no session operation is entered,
the session is unchanged) and the loop goes on with the next read on the same
session. -/
theorem C12_missing_or_empty_command (env : Env) (r : RobotController) (rawMsg : RawMsg) :
    (List.lookup "command" rawMsg = none → List.lookup "type" rawMsg = none →
      handleFrame env r rawMsg
        = { ret := (), state := r,
            trace := [Event.writeJSON
              { Type_ := "error", Message := "No command or type field found" }] } ∧
      ∀ rest, readLoop r ({ result := Except.ok rawMsg, env := env } :: rest)
        = { ret := (readLoop r rest).ret, state := (readLoop r rest).state,
            trace := Event.writeJSON
              { Type_ := "error", Message := "No command or type field found" }
              :: (readLoop r rest).trace,
            panicked := (readLoop r rest).panicked }) ∧
    (frameCommand rawMsg = some "" →
      handleFrame env r rawMsg
        = { ret := (), state := r,
            trace := [Event.writeJSON
              { Type_ := "error", Message := "Empty command received" }] } ∧
      ∀ rest, readLoop r ({ result := Except.ok rawMsg, env := env } :: rest)
        = { ret := (readLoop r rest).ret, state := (readLoop r rest).state,
            trace := Event.writeJSON { Type_ := "error", Message := "Empty command received" }
              :: (readLoop r rest).trace,
            panicked := (readLoop r rest).panicked }) := by
  constructor
  · intro hc ht
    have h : handleFrame env r rawMsg
        = { ret := (), state := r,
            trace := [Event.writeJSON
              { Type_ := "error", Message := "No command or type field found" }] } := by
      simp [handleFrame, frameCommand, hc, ht, asString, sendError]
    exact ⟨h, fun rest => by simp [readLoop, h]⟩
  · intro he
    have h : handleFrame env r rawMsg
        = { ret := (), state := r,
            trace := [Event.writeJSON
              { Type_ := "error", Message := "Empty command received" }] } := by
      simp [handleFrame, he, sendError]
    exact ⟨h, fun rest => by simp [readLoop, h]⟩

theorem C12_missing_or_empty_command_witness :
    (List.lookup "command" ([] : RawMsg) = none ∧ List.lookup "type" ([] : RawMsg) = none ∧
      handleFrame okEnv connectedSession []
        = { ret := (), state := connectedSession,
            trace := [Event.writeJSON
              { Type_ := "error", Message := "No command or type field found" }] }) ∧
    (frameCommand [("command", Value.string "")] = some "" ∧
      handleFrame okEnv connectedSession [("command", Value.string "")]
        = { ret := (), state := connectedSession,
            trace := [Event.writeJSON
              { Type_ := "error", Message := "Empty command received" }] }) :=
  ⟨⟨rfl, rfl, ((C12_missing_or_empty_command okEnv connectedSession []).1 rfl rfl).1⟩,
    ⟨rfl, ((C12_missing_or_empty_command okEnv connectedSession
      [("command", Value.string "")]).2 rfl).1⟩⟩

/-- C13: for every discriminator v that is not empty and is none of connect,
disconnect, move_motor, stop_motor, stop_all, get_status, handling the frame
produces exactly one event, the write of the error "Unknown command: 'v'"; no
session operation is entered, the session is unchanged, and the loop goes on with
the next read on the same session. -/
theorem C13_unknown_command (env : Env) (r : RobotController) (rawMsg : RawMsg) (v : String)
    (hcmd : frameCommand rawMsg = some v) (hne : v ≠ "")
    (hk : v ∉ ["connect", "disconnect", "move_motor", "stop_motor", "stop_all", "get_status"]) :
    (handleFrame env r rawMsg).trace
        = [Event.writeJSON { Type_ := "error", Message := "Unknown command: '" ++ v ++ "'" }] ∧
      (handleFrame env r rawMsg).state = r ∧
      ∀ rest, readLoop r ({ result := Except.ok rawMsg, env := env } :: rest)
        = { ret := (readLoop r rest).ret, state := (readLoop r rest).state,
            trace := Event.writeJSON
              { Type_ := "error", Message := "Unknown command: '" ++ v ++ "'" }
              :: (readLoop r rest).trace,
            panicked := (readLoop r rest).panicked } := by
  have h := handleFrame_unknown env r rawMsg v hcmd hne hk
  refine ⟨by rw [h]; rfl, by rw [h], fun rest => ?_⟩
  simp [readLoop, h, sendError]

theorem C13_unknown_command_witness :
    frameCommand [("type", Value.string "frobnicate")] = some "frobnicate" ∧
      (handleFrame okEnv connectedSession [("type", Value.string "frobnicate")]).trace
        = [Event.writeJSON { Type_ := "error", Message := "Unknown command: 'frobnicate'" }] ∧
      (handleFrame okEnv connectedSession [("type", Value.string "frobnicate")]).state
        = connectedSession :=
  ⟨rfl,
    (C13_unknown_command okEnv connectedSession [("type", Value.string "frobnicate")]
      "frobnicate" rfl (by decide) (by decide)).1,
    (C13_unknown_command okEnv connectedSession [("type", Value.string "frobnicate")]
      "frobnicate" rfl (by decide) (by decide)).2.1⟩

/-! ## Connect, Disconnect and the operations that leave the session alone -/

/-- C14: Disconnect is idempotent. On a session that is already Disconnected it
returns ok, makes no driver call and leaves the session as it is; hence a second
Disconnect right after one on a Disconnected session, or right after one that
returned ok on a session holding a handle, returns ok again without a driver call,
and the final state is Disconnected. -/
theorem C14_disconnect_idempotent (env1 env2 : Env) (r : RobotController) :
    (r.connected = false →
      (Disconnect env1 r).ret = none ∧ (Disconnect env1 r).trace = [] ∧
      (Disconnect env1 r).state = r ∧
      (Disconnect env2 (Disconnect env1 r).state).ret = none ∧
      (Disconnect env2 (Disconnect env1 r).state).trace = [] ∧
      (Disconnect env2 (Disconnect env1 r).state).state.connected = false) ∧
    ((Disconnect env1 r).ret = none → r.device ≠ none →
      (Disconnect env2 (Disconnect env1 r).state).ret = none ∧
      (Disconnect env2 (Disconnect env1 r).state).trace = [] ∧
      (Disconnect env2 (Disconnect env1 r).state).state = (Disconnect env1 r).state ∧
      (Disconnect env2 (Disconnect env1 r).state).state.connected = false) := by
  have off : ∀ (env : Env) (s : RobotController), s.connected = false →
      (Disconnect env s).ret = none ∧ (Disconnect env s).trace = [] ∧
      (Disconnect env s).state = s := by
    intro env s hs
    unfold Disconnect
    cases hd : s.device <;> simp [hs]
  constructor
  · intro hc
    obtain ⟨h1, h2, h3⟩ := off env1 r hc
    obtain ⟨k1, k2, k3⟩ := off env2 r hc
    rw [h3]
    exact ⟨h1, h2, rfl, k1, k2, by rw [k3]; exact hc⟩
  · intro hret hdev
    have hoff : (Disconnect env1 r).state.connected = false := by
      unfold Disconnect at hret ⊢
      cases hd : r.device with
      | none => exact absurd hd hdev
      | some d =>
        cases hc : r.connected with
        | false => simp [hc]
        | true =>
          cases he : env1.deviceDisconnect with
          | none =>
            cases hp : env1.devicePanics with
            | false => simp [hc, he, hp]
            | true => simp [hd, hc, he, hp] at hret
          | some e => simp [hd, hc, he] at hret
    obtain ⟨k1, k2, k3⟩ := off env2 (Disconnect env1 r).state hoff
    exact ⟨k1, k2, k3, by rw [k3]; exact hoff⟩

theorem C14_disconnect_idempotent_witness :
    (NewRobotController.connected = false ∧
      (Disconnect okEnv NewRobotController).ret = none ∧
      (Disconnect okEnv NewRobotController).trace = [] ∧
      (Disconnect okEnv NewRobotController).state = NewRobotController ∧
      (Disconnect okEnv (Disconnect okEnv NewRobotController).state).ret = none ∧
      (Disconnect okEnv (Disconnect okEnv NewRobotController).state).trace = [] ∧
      (Disconnect okEnv (Disconnect okEnv NewRobotController).state).state.connected = false) ∧
    ((Disconnect okEnv connectedSession).ret = none ∧ connectedSession.device ≠ none ∧
      (Disconnect okEnv (Disconnect okEnv connectedSession).state).ret = none ∧
      (Disconnect okEnv (Disconnect okEnv connectedSession).state).trace = [] ∧
      (Disconnect okEnv (Disconnect okEnv connectedSession).state).state
        = (Disconnect okEnv connectedSession).state ∧
      (Disconnect okEnv (Disconnect okEnv connectedSession).state).state.connected = false) :=
  ⟨⟨rfl, (C14_disconnect_idempotent okEnv okEnv NewRobotController).1 rfl⟩,
    ⟨rfl, by decide,
      (C14_disconnect_idempotent okEnv okEnv connectedSession).2 rfl (by decide)⟩⟩

/-- C15: for every session state and every handle, Connect returns ok and leaves
the session Connected with exactly that handle stored; the handle held before, if
any, is overwritten, and the driver's disconnect is not called (the whole trace is
the two logger lines). -/
theorem C15_connect_stores_handle (r : RobotController) (h : Device) :
    (Connect r (some h)).ret = none ∧
      (Connect r (some h)).state = { device := some h, connected := true } ∧
      (Connect r (some h)).trace
        = [Event.bleLog "Connecting to device...", Event.bleLog "Connected to device"] ∧
      (∀ d, Event.deviceDisconnect d ∉ (Connect r (some h)).trace) := by
  simp [Connect]

/-- C16: SendCommand, StopAllMotors and ScanForDevice return the session exactly as
they found it, for every state, every argument and every outcome of the outside
calls (so whether they succeed or fail). IsConnected and GetDeviceInfo only read
the controller; the handlers built on them, GetRobotInfo and the streaming
get_status, return the session as they found it too. -/
theorem C16_only_connect_disconnect_change_state (env : Env) (r : RobotController)
    (cmd : MotorCommand) :
    (SendCommand env r cmd).state = r ∧
      (StopAllMotors env r).state = r ∧
      (ScanForDevice r).state = r ∧
      (GetRobotInfo r).state = r ∧
      (handleGetStatusCommand r).state = r ∧
      IsConnected r = r.connected ∧
      (GetDeviceInfo r = "No device connected" ↔ r.device = none) :=
  ⟨SendCommand_state env r cmd, StopAllMotors_state env r, rfl, rfl, rfl, rfl, by
    cases hd : r.device with
    | none => simp [GetDeviceInfo, hd]
    | some d =>
      simp only [GetDeviceInfo, hd]
      constructor
      · intro h
        have hl := congrArg String.length h
        simp only [String.length_append] at hl
        have h1 : "Device: ".length = 8 := by decide
        have h2 : "No device connected".length = 19 := by decide
        have h3 : DEVICE_NAME.length = 14 := by decide
        have h4 : " (".length = 2 := by decide
        have h5 : ")".length = 1 := by decide
        omega
      · intro h
        exact absurd h (by simp)⟩

/-! ## The stop_motor path and rejected move_motor frames -/

/-- On a Connected session, a stop_motor frame with a number in its motor field
reaches SendCommand once, with the stop command for that motor -/
theorem handleStopMotorCommand_connected (env : Env) (r : RobotController) (rawMsg : RawMsg)
    (fm : Rat) (hc : r.connected = true)
    (hm : List.lookup "motor" rawMsg = some (Value.number fm)) :
    sendCalls (handleStopMotorCommand env r rawMsg).trace
        = [{ Motor := intOfFloat64 fm, Direction := "stop", Speed := 0 }] ∧
      (∀ js, env.marshal { Motor := intOfFloat64 fm, Direction := "stop", Speed := 0 }
          = Except.ok js →
        writes (handleStopMotorCommand env r rawMsg).trace
          = [{ Type_ := "motor_command",
               Data := some (Payload.motorResult true "Motor stopped") }]) := by
  unfold handleStopMotorCommand
  simp only [IsConnected, hc, hm, asFloat64, SendCommand_state, Bool.not_true,
    Bool.false_eq_true, if_false]
  refine ⟨?_, ?_⟩
  · split <;> simp [sendCalls_append, SendCommand_sendCalls, sendError, sendMessage, sendCalls]
  · intro js hjs
    have hret := SendCommand_ret_ok env r _ js hc hjs
    simp [hret, writes_append, SendCommand_writes, sendMessage, writes]

/-- C17, as stated, fails: on a Connected session the stop_motor frame with motor
index 9223372036854775808 (2^63, an integer that a float64 holds exactly) is
answered with success, but the command handed to SendCommand has motor
-9223372036854775808; and the frame with motor index 9007199254740993 (2^53 + 1) is
decoded to the float64 2^53, so the command has motor 9007199254740992. -/
theorem C17_counterexample :
    (sendCalls (handleFrame okEnv connectedSession
        (stopFrame 9223372036854775808 "forward" 80)).trace
        = [{ Motor := -9223372036854775808, Direction := "stop", Speed := 0 }] ∧
      writes (handleFrame okEnv connectedSession
        (stopFrame 9223372036854775808 "forward" 80)).trace
        = [{ Type_ := "motor_command",
             Data := some (Payload.motorResult true "Motor stopped") }]) ∧
    sendCalls (handleFrame okEnv connectedSession
        (stopFrame 9007199254740993 "forward" 80)).trace
      = [{ Motor := 9007199254740992, Direction := "stop", Speed := 0 }] := by
  decide

/-- C17, amended: on a Connected session, a stop_motor frame whose motor field is an
integer m that the float64 of the decoded frame holds exactly (as every integer of
magnitude below 2^53 is) and that lies in the range of int hands to SendCommand the
command with motor m, direction "stop" and speed 0, whatever direction or speed
field the frame carries, and (json.Marshal succeeding) writes exactly one message,
of type motor_command with success = true. -/
theorem C17_stop_motor_command (env : Env) (r : RobotController) (rawMsg : RawMsg)
    (m : Int) (js : String)
    (hc : r.connected = true)
    (hcmd : frameCommand rawMsg = some "stop_motor")
    (hm : List.lookup "motor" rawMsg = some (Value.number (float64OfInt m)))
    (hmx : float64OfInt m = (m : Rat))
    (hm0 : -(2 ^ 63 : Int) ≤ m) (hm1 : m < 2 ^ 63)
    (hjs : env.marshal { Motor := m, Direction := "stop", Speed := 0 } = Except.ok js) :
    sendCalls (handleFrame env r rawMsg).trace
        = [{ Motor := m, Direction := "stop", Speed := 0 }] ∧
      writes (handleFrame env r rawMsg).trace
        = [{ Type_ := "motor_command",
             Data := some (Payload.motorResult true "Motor stopped") }] := by
  rw [hmx] at hm
  have h := handleStopMotorCommand_connected env r rawMsg (m : Rat) hc hm
  rw [intOfFloat64_intCast m hm0 hm1] at h
  rw [handleFrame_stop_motor env r rawMsg hcmd]
  exact ⟨h.1, h.2 js hjs⟩

theorem C17_stop_motor_command_witness :
    connectedSession.connected = true ∧
      frameCommand (stopFrame 2 "forward" 80) = some "stop_motor" ∧
      float64OfInt 2 = ((2 : Int) : Rat) ∧
      List.lookup "speed" (stopFrame 2 "forward" 80) = some (Value.number (float64OfInt 80)) ∧
      sendCalls (handleFrame okEnv connectedSession (stopFrame 2 "forward" 80)).trace
        = [{ Motor := 2, Direction := "stop", Speed := 0 }] ∧
      writes (handleFrame okEnv connectedSession (stopFrame 2 "forward" 80)).trace
        = [{ Type_ := "motor_command",
             Data := some (Payload.motorResult true "Motor stopped") }] :=
  ⟨rfl, rfl, float64OfInt_small 2 (by decide), rfl,
    C17_stop_motor_command okEnv connectedSession (stopFrame 2 "forward" 80) 2 _
      rfl rfl rfl (float64OfInt_small 2 (by decide)) (by decide) (by decide) rfl⟩

/-- C18, as stated, fails: on a Connected session, the move_motor frame without a
motor field and the move_motor frame whose speed is a string are rejected with one
and the same error message, "Invalid motor command parameters". -/
theorem C18_counterexample :
    writes (handleFrame okEnv connectedSession
        [("command", Value.string "move_motor"), ("direction", Value.string "forward"),
         ("speed", Value.number 50)]).trace
        = [{ Type_ := "error", Message := "Invalid motor command parameters" }] ∧
      writes (handleFrame okEnv connectedSession
        [("command", Value.string "move_motor"), ("motor", Value.number 1),
         ("direction", Value.string "forward"), ("speed", Value.string "fast")]).trace
        = [{ Type_ := "error", Message := "Invalid motor command parameters" }] := by
  decide

/-- C18, amended: on a Connected session, a move_motor frame in which motor is not a
number, direction is not a string or speed is not a number (missing or of another
type) is rejected with exactly one event, the write of the error "Invalid motor
command parameters", the same whichever field is at fault; no command reaches
SendCommand and the session is unchanged. -/
theorem C18_invalid_parameters (env : Env) (r : RobotController) (rawMsg : RawMsg)
    (hc : r.connected = true)
    (hcmd : frameCommand rawMsg = some "move_motor")
    (hbad : asFloat64 (List.lookup "motor" rawMsg) = none ∨
      asString (List.lookup "direction" rawMsg) = none ∨
      asFloat64 (List.lookup "speed" rawMsg) = none) :
    (handleFrame env r rawMsg).trace
        = [Event.writeJSON { Type_ := "error", Message := "Invalid motor command parameters" }] ∧
      sendCalls (handleFrame env r rawMsg).trace = [] ∧
      (handleFrame env r rawMsg).state = r := by
  rw [handleFrame_move_motor env r rawMsg hcmd]
  have h : handleMoveMotorCommand env r rawMsg
      = { ret := (), state := r, trace := sendError "Invalid motor command parameters" } := by
    unfold handleMoveMotorCommand
    simp only [IsConnected, hc, Bool.not_true, Bool.false_eq_true, if_false]
    rcases hbad with h1 | h1 | h1
    · rw [h1]
    · rw [h1]
      cases asFloat64 (List.lookup "motor" rawMsg) <;> rfl
    · rw [h1]
      cases asFloat64 (List.lookup "motor" rawMsg) <;>
        cases asString (List.lookup "direction" rawMsg) <;> rfl
  rw [h]
  exact ⟨rfl, rfl, rfl⟩

theorem C18_invalid_parameters_witness :
    connectedSession.connected = true ∧
      (asFloat64 (List.lookup "motor"
          [("command", Value.string "move_motor"), ("motor", Value.number 1),
           ("direction", Value.string "forward"), ("speed", Value.string "fast")]) = none ∨
        asString (List.lookup "direction"
          [("command", Value.string "move_motor"), ("motor", Value.number 1),
           ("direction", Value.string "forward"), ("speed", Value.string "fast")]) = none ∨
        asFloat64 (List.lookup "speed"
          [("command", Value.string "move_motor"), ("motor", Value.number 1),
           ("direction", Value.string "forward"), ("speed", Value.string "fast")]) = none) ∧
      (handleFrame okEnv connectedSession
          [("command", Value.string "move_motor"), ("motor", Value.number 1),
           ("direction", Value.string "forward"), ("speed", Value.string "fast")]).trace
        = [Event.writeJSON { Type_ := "error", Message := "Invalid motor command parameters" }] :=
  ⟨rfl, Or.inr (Or.inr rfl),
    (C18_invalid_parameters okEnv connectedSession
      [("command", Value.string "move_motor"), ("motor", Value.number 1),
       ("direction", Value.string "forward"), ("speed", Value.string "fast")]
      rfl rfl (Or.inr (Or.inr rfl))).1⟩

/-! ## The synchronous handlers (handlers.go) -/

theorem responses_append (xs ys : List Event) :
    responses (xs ++ ys) = responses xs ++ responses ys := by
  induction xs with
  | nil => rfl
  | cons e es ih => cases e <;> simp [responses, ih]

theorem Disconnect_responses (env : Env) (r : RobotController) :
    responses (Disconnect env r).trace = [] := by
  unfold Disconnect
  split
  · split
    · split
      · rfl
      · split <;> rfl
    · rfl
  · rfl

theorem SendCommand_responses (env : Env) (r : RobotController) (cmd : MotorCommand) :
    responses (SendCommand env r cmd).trace = [] := by
  unfold SendCommand
  split
  · rfl
  · split <;> rfl

theorem stopAllLoop_responses (env : Env) (r : RobotController) (ms : List Nat) :
    responses (stopAllLoop env r ms).trace = [] := by
  induction ms with
  | nil => rfl
  | cons m rest ih =>
    unfold stopAllLoop
    simp only [SendCommand_state]
    split
    · exact SendCommand_responses env r _
    · simp [responses_append, SendCommand_responses, ih]

theorem StopAllMotors_responses (env : Env) (r : RobotController) :
    responses (StopAllMotors env r).trace = [] := by
  simp [StopAllMotors, responses, stopAllLoop_responses]

/-- C19, as stated, fails for MoveMotor: when the request body does not bind (here
with the binding error "EOF"), the response has status "error" although no session
operation returned an error: SendCommand is not even entered. -/
theorem C19_counterexample :
    responses (MoveMotor okEnv connectedSession (Except.error "EOF")).trace
        = [(400, { Status := "error", Error := "EOF" })] ∧
      sendCalls (MoveMotor okEnv connectedSession (Except.error "EOF")).trace = [] := by
  decide

/-- C19, amended: each synchronous handler that returns writes exactly one
response. For DisconnectRobot (when the driver call does not panic), StopAllMotors
and, once the request body has bound to a command, MoveMotor, the response has
status "error" and carries the text of the error when the session operation
(Disconnect, StopAllMotors, SendCommand) returned one, and has status "success"
when it returned nil. For ConnectRobot the two session operations, ScanForDevice
and Connect, return nil and the response has status "success". A request body that
does not bind is answered by MoveMotor with status "error" and the text of the
binding error, whatever that error is, without any session operation. -/
theorem C19_core_errors_reported (env : Env) (r : RobotController) (cmd : MotorCommand) :
    ((ScanForDevice r).ret.2 = none ∧
      (Connect (ScanForDevice r).state (ScanForDevice r).ret.1).ret = none ∧
      responses (ConnectRobot r).trace
        = [(200, { Status := "success", Message := "Connected to robot" })]) ∧
    ((Disconnect env r).panicked = false →
      responses (DisconnectRobot env r).trace
        = [match (Disconnect env r).ret with
           | some e => (500, { Status := "error", Error := e })
           | none => (200, { Status := "success", Message := "Disconnected from robot" })]) ∧
    responses (MoveMotor env r (Except.ok cmd)).trace
      = [match (SendCommand env r cmd).ret with
         | some e => (500, { Status := "error", Error := e })
         | none => (200, { Status := "success", Message := "Motor command sent" })] ∧
    responses (StopAllMotorsHandler env r).trace
      = [match (StopAllMotors env r).ret with
         | some e => (500, { Status := "error", Error := e })
         | none => (200, { Status := "success", Message := "All motors stopped" })] ∧
    (∀ err : String,
      (MoveMotor env r (Except.error err)).trace
        = [Event.respond 400 { Status := "error", Error := err }] ∧
      (MoveMotor env r (Except.error err)).state = r) := by
  refine ⟨⟨rfl, rfl, ?_⟩, ?_, ?_, ?_, fun err => ⟨rfl, rfl⟩⟩
  · simp [ConnectRobot, ScanForDevice, Connect, responses, StatusOK]
  · intro hp
    unfold DisconnectRobot
    simp only [hp, Bool.false_eq_true, if_false]
    split <;> rename_i h <;>
      simp [h, responses_append, Disconnect_responses, responses, StatusOK,
        StatusInternalServerError]
  · unfold MoveMotor
    simp only
    split <;> rename_i h <;>
      simp [h, responses_append, SendCommand_responses, responses, StatusOK,
        StatusInternalServerError]
  · unfold StopAllMotorsHandler
    simp only
    split <;> rename_i h <;>
      simp [h, responses_append, StopAllMotors_responses, stopAllLoop_responses, responses,
        StatusOK, StatusInternalServerError]

theorem C19_core_errors_reported_witness :
    ((Disconnect { marshal := okEnv.marshal, deviceDisconnect := some "timeout" }
        connectedSession).panicked = false ∧
      responses (DisconnectRobot { marshal := okEnv.marshal, deviceDisconnect := some "timeout" }
        connectedSession).trace
        = [(500, { Status := "error", Error := "disconnect failed: timeout" })]) ∧
    ((Disconnect okEnv connectedSession).panicked = false ∧
      responses (DisconnectRobot okEnv connectedSession).trace
        = [(200, { Status := "success", Message := "Disconnected from robot" })]) :=
  ⟨⟨rfl,
      (C19_core_errors_reported { marshal := okEnv.marshal, deviceDisconnect := some "timeout" }
        connectedSession { Motor := 0, Direction := "stop", Speed := 0 }).2.1 rfl⟩,
    ⟨rfl,
      (C19_core_errors_reported okEnv connectedSession
        { Motor := 0, Direction := "stop", Speed := 0 }).2.1 rfl⟩⟩

/-! ## Frames whose command field is not a usable discriminator -/

/-- C20: a frame whose command field is present but is not a string, and whose type
field is the string t, has discriminator t and is handled exactly as the same frame
with command set to t; whereas a frame whose command field is the empty string is
answered with the error "Empty command received" and nothing else, whatever its
type field holds. -/
theorem C20_command_not_a_string (env : Env) (r : RobotController) (rawMsg : RawMsg) :
    (∀ v t, List.lookup "command" rawMsg = some v → asString (some v) = none →
      List.lookup "type" rawMsg = some (Value.string t) →
      frameCommand rawMsg = some t ∧
      handleFrame env r rawMsg = handleFrame env r (("command", Value.string t) :: rawMsg)) ∧
    (List.lookup "command" rawMsg = some (Value.string "") →
      (handleFrame env r rawMsg).trace
        = [Event.writeJSON { Type_ := "error", Message := "Empty command received" }] ∧
      (handleFrame env r rawMsg).state = r) := by
  constructor
  · intro v t hv hns ht
    have h0 : frameCommand rawMsg = some t := by
      unfold frameCommand
      rw [hv, hns, ht]
      rfl
    have h1 : frameCommand (("command", Value.string t) :: rawMsg) = some t := by
      simp [frameCommand, asString]
    exact ⟨h0, (handleFrame_cons env r rawMsg "command" (Value.string t)
      (by decide) (by decide) (by decide) (h1.trans h0.symm)).symm⟩
  · intro he
    have h0 : frameCommand rawMsg = some "" := by simp [frameCommand, he, asString]
    simp [handleFrame, h0, sendError]

theorem C20_command_not_a_string_witness :
    (List.lookup "command" [("command", Value.null), ("type", Value.string "connect")]
        = some Value.null ∧
      asString (some Value.null) = none ∧
      frameCommand [("command", Value.null), ("type", Value.string "connect")]
        = some "connect" ∧
      handleFrame okEnv NewRobotController
          [("command", Value.null), ("type", Value.string "connect")]
        = handleFrame okEnv NewRobotController
          [("command", Value.string "connect"), ("command", Value.null),
           ("type", Value.string "connect")]) ∧
    (List.lookup "command" [("command", Value.string ""), ("type", Value.string "connect")]
        = some (Value.string "") ∧
      (handleFrame okEnv NewRobotController
          [("command", Value.string ""), ("type", Value.string "connect")]).trace
        = [Event.writeJSON { Type_ := "error", Message := "Empty command received" }] ∧
      (handleFrame okEnv NewRobotController
          [("command", Value.string ""), ("type", Value.string "connect")]).state
        = NewRobotController) :=
  ⟨⟨rfl, rfl,
      (C20_command_not_a_string okEnv NewRobotController
        [("command", Value.null), ("type", Value.string "connect")]).1
          Value.null "connect" rfl rfl rfl⟩,
    ⟨rfl,
      (C20_command_not_a_string okEnv NewRobotController
        [("command", Value.string ""), ("type", Value.string "connect")]).2 rfl⟩⟩

end RobotArm
